import Mathlib

/-!
Shallow embedding of the half2me/ant-rs message router (src/ant/src/router.rs)
and the heart-rate display profile (src/ant/src/plus/profiles/heart_rate/display.rs),
with theorems checking the natural-language specification against the code.

Modelling conventions:
* Machine integers (`u8`, `usize`) are `Nat`; the only place a bit operation
  matters is the data-page number mask, kept as `&&&`.
* The driver is modelled as a script of successive `get_message` results
  (`none` = "no message available right now"); `send_message` appends to a log
  and never fails in the model (the router propagates driver send errors with
  `?`, but no claim under study depends on a failing send).
* A shared channel object (`Rc<RefCell<dyn Channel>>`) is identified by a
  numeric id (the identity of the pointee); the heap of channel objects is a
  function `Nat → Chan`.  The channel trait implementation is modelled as a
  recording channel: `receive_message` appends the message, `send_message`
  pops an outbound queue, `set_channel` stores the assignment — exactly the
  three-operation contract the router relies on.
* Stateful fallible methods (`&mut self` + `Result`) become
  `World → Except (RouterError × World) World`: the error carries the state at
  the moment of the early return, as the Rust mutations performed so far
  persist in `self`.
* An `Event` trace is threaded through the state to make ordering of observer
  invocations, channel deliveries and driver sends statable.
-/

namespace AntRs

/-- ChannelAssignment from the channel module: a two-variant tag given to a
channel when it enters or leaves a router slot. -/
inductive ChannelAssignment
  | UnAssigned : ChannelAssignment
  | Assigned (index : Nat) : ChannelAssignment
deriving DecidableEq

/-- RxMessage: the receivable message payloads dispatched by
`Router::handle_message`.  Channel-scoped kinds keep their channel number;
broadcast/acknowledged data also keep their 8-byte page payload (used by the
heart-rate display); remaining payload fields are irrelevant to every claim
and elided.  `Capabilities` keeps `base_capabilities.max_ant_channels`. -/
inductive RxMessage
  | BroadcastData (channelNumber : Nat) (data : List Nat)
  | AcknowledgedData (channelNumber : Nat) (data : List Nat)
  | BurstTransferData (channelNumber : Nat)
  | AdvancedBurstData (channelNumber : Nat)
  | ChannelEvent (channelNumber : Nat)
  | ChannelResponse (channelNumber : Nat)
  | ChannelStatus (channelNumber : Nat)
  | ChannelId (channelNumber : Nat)
  | StartUpMessage
  | Capabilities (maxAntChannels : Nat)
  | AdvancedBurstCapabilities
  | AdvancedBurstCurrentConfiguration
  | EncryptionModeParameters
  | EventFilter
  | SerialErrorMessage
  | AntVersion
  | SerialNumber
  | EventBufferConfiguration
  | SelectiveDataUpdateMaskSetting
  | UserNvm
deriving DecidableEq

/-- AntMessage: wrapper around the received message payload (header and
checksum fields are irrelevant to routing and elided). -/
structure AntMessage where
  message : RxMessage
deriving DecidableEq

/-- TxMessage: the transmittable messages the router itself sends to the
driver, plus a stand-in constructor for messages produced by channel
implementations (`Channel::send_message`). -/
inductive TxMessage
  | ResetSystem
  | RequestMessage (channel : Nat)
  | CloseChannel (idx : Nat)
  | UnAssignChannel (idx : Nat)
  | ChannelPayload (tag : Nat)
deriving DecidableEq

/-- RouterError from src/ant/src/router.rs. -/
inductive RouterError
  | OutOfChannels
  | ChannelAlreadyAssigned
  | DriverError
  | ChannelOutOfBounds
  | ChannelNotAssociated
  | FailedToGetCapabilities
deriving DecidableEq

/-- MAX_CHANNELS: the fixed size of the router's channel slot array. -/
def MAX_CHANNELS : Nat := 15

/-- ROUTER_CAPABILITIES_RETRIES: retry budget of the capabilities poll loop
in `Router::new`. -/
def ROUTER_CAPABILITIES_RETRIES : Nat := 25

/-- One object implementing the `Channel` trait, modelled as a recording
channel: `receive_message` appends to `received`, `send_message` pops
`outQueue`, `set_channel` stores into `assignment`. -/
structure Chan where
  assignment : ChannelAssignment
  received : List AntMessage
  outQueue : List TxMessage
deriving DecidableEq

/-- A freshly created channel object: unassigned, nothing received or queued. -/
def Chan.init : Chan := ⟨.UnAssigned, [], []⟩

/-- Driver state: `script` is the list of successive `get_message` results
(an exhausted script keeps answering `none`); `sentLog` records every message
passed to `send_message`, in order. -/
structure DriverSt where
  script : List (Option AntMessage)
  sentLog : List TxMessage
deriving DecidableEq

/-- Observable events, used to state ordering properties of `process`. -/
inductive Event
  | observed (m : AntMessage)
  | delivered (cid : Nat) (m : AntMessage)
  | sent (tx : TxMessage)
deriving DecidableEq

/-- The full state: the router's fields, the heap of channel objects
(indexed by identity), the driver, and the event trace. -/
structure World where
  channels : List (Option Nat)
  maxChannels : Nat
  resetRestore : Bool
  cbSet : Bool
  chans : Nat → Chan
  driver : DriverSt
  trace : List Event

/-- Pointwise update of the channel heap. -/
def setChan (f : Nat → Chan) (cid : Nat) (c : Chan) : Nat → Chan :=
  fun x => if x = cid then c else f x

/-- driver.send_message: append to the send log (and the event trace). -/
def World.sendDriver (w : World) (tx : TxMessage) : World :=
  { w with driver := { w.driver with sentLog := w.driver.sentLog ++ [tx] },
           trace := w.trace ++ [.sent tx] }

/-- Channel::receive_message on the occupant `cid`: record the message. -/
def World.deliver (w : World) (cid : Nat) (m : AntMessage) : World :=
  { w with chans := setChan w.chans cid
             { w.chans cid with received := (w.chans cid).received ++ [m] },
           trace := w.trace ++ [.delivered cid m] }

/-- The rx_message_callback: invoked on every inbound message when set. -/
def World.observe (w : World) (m : AntMessage) : World :=
  if w.cbSet then { w with trace := w.trace ++ [.observed m] } else w

/-- Channel::set_channel on the object `cid`. -/
def setChannelOp (w : World) (cid : Nat) (a : ChannelAssignment) : World :=
  { w with chans := setChan w.chans cid { w.chans cid with assignment := a } }

/-- The ids stored in the occupied slots, in slot order
(`self.channels.iter().flatten()`). -/
def occupied (channels : List (Option Nat)) : List Nat := channels.filterMap id

/-- Router::add_channel (src/ant/src/router.rs:94-105): first free slot by
linear scan over the full 15-slot array; `OutOfChannels` if none; otherwise
`set_channel(Assigned(index))` on the object, then store it. -/
def addChannel (w : World) (cid : Nat) : Except (RouterError × World) World :=
  match w.channels.findIdx? Option.isNone with
  | none => .error (.OutOfChannels, w)
  | some index =>
      let w := setChannelOp w cid (.Assigned index)
      .ok { w with channels := w.channels.set index (some cid) }

/-- Router::add_channel_at_index (src/ant/src/router.rs:108-124): bounds check
against `max_channels`, occupancy check, then assign and store.  The Rust
slot access `self.channels[index]` would panic when `index` is in bounds of
`max_channels` but beyond the 15-slot array; the model is used only under the
hypothesis `maxChannels ≤ channels.length`, where `getD` agrees with it. -/
def addChannelAtIndex (w : World) (cid : Nat) (index : Nat) :
    Except (RouterError × World) World :=
  if index ≥ w.maxChannels then .error (.ChannelOutOfBounds, w)
  else if (w.channels.getD index none).isSome then
    .error (.ChannelAlreadyAssigned, w)
  else
    let w := setChannelOp w cid (.Assigned index)
    .ok { w with channels := w.channels.set index (some cid) }

/-- A `&SharedChannel` value, i.e. a reference to some `Rc` handle: either the
`Rc` stored in slot `i` of the router's own array, or an `Rc` held by the
caller outside the router (whose pointee has identity `pointee`). -/
inductive RcRef
  | slot (i : Nat)
  | caller (pointee : Nat)
deriving DecidableEq

/-- std::ptr::eq between the reference to the `Rc` stored in array slot `i`
and the reference passed by the caller.  `std::ptr::eq` on two `&Rc` compares
the addresses of the `Rc` handle values themselves, not the pointees
(`Rc::ptr_eq` would compare pointees).  The caller's reference can never alias
the router's own array while `remove_channel` holds `&mut self`, so a
caller-held handle compares unequal at every slot; two slot references are
equal exactly when they are the same slot. -/
def ptrEqSlotRef : Nat → RcRef → Bool
  | i, .slot j => i == j
  | _, .caller _ => false

/-- The occupied slots with their slot indices, in slot order. -/
def flattenSlots (channels : List (Option Nat)) : List (Nat × Nat) :=
  channels.enum.filterMap (fun p => p.2.map (fun cid => (p.1, cid)))

/-- Router::remove_channel (src/ant/src/router.rs:156-174).  The source
computes `self.channels.iter().flatten().position(|x| std::ptr::eq(x, channel))`:
the position is taken within the flattened (gap-skipping) sequence of occupied
slots, and that flattened position is then used as the slot index for
`take`/close/unassign.  On a match: clear that slot, `set_channel(UnAssigned())`
on whatever occupant was there, then send close-channel and unassign-channel
for that index.  No match: `ChannelNotAssociated`. -/
def removeChannel (w : World) (c : RcRef) : Except (RouterError × World) World :=
  match (flattenSlots w.channels).findIdx? (fun p => ptrEqSlotRef p.1 c) with
  | some x =>
      let chanOpt := w.channels.getD x none
      let w1 := { w with channels := w.channels.set x none }
      let w2 := match chanOpt with
        | some cid => setChannelOp w1 cid .UnAssigned
        | none => w1
      .ok ((w2.sendDriver (.CloseChannel x)).sendDriver (.UnAssignChannel x))
  | none => .error (.ChannelNotAssociated, w)

/-- Router::route_message (src/ant/src/router.rs:183-192).  Note that the
source discards the `Result` of the occupant's `receive_message` (the `match`
result is dropped and `Ok(())` is returned); the recording channel never
fails, so `deliver` is total. -/
def routeMessage (w : World) (channel : Nat) (m : AntMessage) :
    Except (RouterError × World) World :=
  if channel ≥ MAX_CHANNELS then .error (.ChannelOutOfBounds, w)
  else match w.channels.getD channel none with
    | some cid => .ok (w.deliver cid m)
    | none => .error (.ChannelNotAssociated, w)

/-- Router::broadcast_message (src/ant/src/router.rs:194-199): deliver to
every occupied slot in slot order. -/
def broadcastMessage (w : World) (m : AntMessage) : World :=
  (occupied w.channels).foldl (fun acc cid => acc.deliver cid m) w

/-- Router::parse_capabilities (src/ant/src/router.rs:201-204). -/
def parseCapabilities (w : World) (maxAnt : Nat) : World :=
  { w with maxChannels := maxAnt }

/-- Router::handle_message (src/ant/src/router.rs:206-260): observer callback
first, then dispatch by message kind. -/
def handleMessage (w : World) (m : AntMessage) : Except (RouterError × World) World :=
  let w := w.observe m
  match m.message with
  | .BroadcastData n _ => routeMessage w n m
  | .AcknowledgedData n _ => routeMessage w n m
  | .BurstTransferData n => routeMessage w n m
  | .AdvancedBurstData n => routeMessage w n m
  | .ChannelEvent n => routeMessage w n m
  | .ChannelResponse n => routeMessage w n m
  | .ChannelStatus n => routeMessage w n m
  | .ChannelId n => routeMessage w n m
  | .StartUpMessage => .ok (broadcastMessage w m)
  | .Capabilities maxAnt => .ok (parseCapabilities (broadcastMessage w m) maxAnt)
  | .AdvancedBurstCapabilities => .ok (broadcastMessage w m)
  | .AdvancedBurstCurrentConfiguration => .ok (broadcastMessage w m)
  | .EncryptionModeParameters => .ok (broadcastMessage w m)
  | .EventFilter => .ok w
  | .SerialErrorMessage => .ok w
  | .AntVersion => .ok w
  | .SerialNumber => .ok w
  | .EventBufferConfiguration => .ok w
  | .SelectiveDataUpdateMaskSetting => .ok w
  | .UserNvm => .ok w

/-- The drain loop of Router::process:
`while let Some(msg) = self.driver.get_message()? { self.handle_message(&msg)?; }`.
The first argument is the driver script, kept equal to `w.driver.script`
(`handleMessage` never touches the driver). -/
def drainGo : List (Option AntMessage) → World → Except (RouterError × World) World
  | [], w => .ok w
  | none :: rest, w => .ok { w with driver := { w.driver with script := rest } }
  | some m :: rest, w =>
      match handleMessage { w with driver := { w.driver with script := rest } } m with
      | .error e => .error e
      | .ok w2 => drainGo rest w2

/-- Drain all currently pending inbound messages. -/
def drain (w : World) : Except (RouterError × World) World :=
  drainGo w.driver.script w

/-- Router::send_channel (src/ant/src/router.rs:279-284): pop the channel's
`send_message` until it returns nothing, forwarding each message to the
driver in order.  The net effect of the loop: the queue is emptied and its
contents appended to the driver log in order (driver sends are infallible in
the model). -/
def sendChannel (w : World) (cid : Nat) : World :=
  ((w.chans cid).outQueue).foldl World.sendDriver
    { w with chans := setChan w.chans cid { w.chans cid with outQueue := [] } }

/-- The flush phase of Router::process: every occupied slot in slot order. -/
def flush (w : World) : World :=
  (occupied w.channels).foldl sendChannel w

/-- Router::process (src/ant/src/router.rs:263-272): drain, then flush. -/
def process (w : World) : Except (RouterError × World) World :=
  match drain w with
  | .error e => .error e
  | .ok w' => .ok (flush w')

/-- The purge loop in Router::new:
`while driver.get_message().unwrap_or(None).is_some() {}` — pop script entries
up to and including the first `none`. -/
def purge : List (Option AntMessage) → List (Option AntMessage)
  | [] => []
  | none :: rest => rest
  | some _ :: rest => purge rest

/-- The freshly constructed router state of Router::new: 15 empty slots,
`max_channels = 0`, no callback, a fresh channel heap, empty trace. -/
def initWorld (d : DriverSt) : World :=
  { channels := List.replicate MAX_CHANNELS none
    maxChannels := 0
    resetRestore := false
    cbSet := false
    chans := fun _ => Chan.init
    driver := d
    trace := [] }

/-- The capabilities poll loop of Router::new:
`let mut i = 0; while max_channels == 0 && i < 25 { process()?; i += 1; }
 if i == 25 { return Err(FailedToGetCapabilities); }`.
Here `fuel = 25 - i`; reaching `fuel = 0` is exactly reaching `i = 25`, where
the source fails regardless of whether the last iteration set `max_channels`. -/
def newGo : Nat → World → Except (RouterError × World) World
  | 0, w => .error (.FailedToGetCapabilities, w)
  | fuel + 1, w =>
      if w.maxChannels = 0 then
        match process w with
        | .error e => .error e
        | .ok w' => newGo fuel w'
      else .ok w

/-- Router::new (src/ant/src/router.rs:59-91): send reset, purge stale
messages, send the capabilities request addressed to channel 0, then run the
bounded poll loop. -/
def routerNew (d : DriverSt) : Except (RouterError × World) World :=
  let d := { d with sentLog := d.sentLog ++ [TxMessage.ResetSystem] }
  let d := { d with script := purge d.script }
  let d := { d with sentLog := d.sentLog ++ [TxMessage.RequestMessage 0] }
  newGo ROUTER_CAPABILITIES_RETRIES (initWorld d)

/-- Result projections, used to state properties of the error-carrying state. -/
def resultError : Except (RouterError × World) World → Option RouterError
  | .error (e, _) => some e
  | .ok _ => none

/-- The state carried by the result, whether ok or error. -/
def resultState : Except (RouterError × World) World → World
  | .error (_, w) => w
  | .ok w => w

/-- Whether the result is a success. -/
def resultOk : Except (RouterError × World) World → Bool
  | .ok _ => true
  | .error _ => false

/-- The channel number of a channel-scoped message kind, `none` for global
kinds (mirrors the grouping of the match in Router::handle_message). -/
def channelScope : RxMessage → Option Nat
  | .BroadcastData n _ => some n
  | .AcknowledgedData n _ => some n
  | .BurstTransferData n => some n
  | .AdvancedBurstData n => some n
  | .ChannelEvent n => some n
  | .ChannelResponse n => some n
  | .ChannelStatus n => some n
  | .ChannelId n => some n
  | _ => none

/-- Whether a global message kind is delivered to every occupied slot
(the side-effecting global kinds of Router::handle_message). -/
def broadcastKind : RxMessage → Bool
  | .StartUpMessage => true
  | .Capabilities _ => true
  | .AdvancedBurstCapabilities => true
  | .AdvancedBurstCurrentConfiguration => true
  | .EncryptionModeParameters => true
  | _ => false

/-- The channel ids a message is delivered to (with multiplicity, in
delivery order), as a function of the slot table. -/
def deliveries (channels : List (Option Nat)) (msg : RxMessage) : List Nat :=
  match channelScope msg with
  | some n =>
      if n < MAX_CHANNELS then
        match channels.getD n none with
        | some cid => [cid]
        | none => []
      else []
  | none => if broadcastKind msg then occupied channels else []

/-- Whether handling the message succeeds, as a function of the slot table. -/
def msgOk (channels : List (Option Nat)) (m : AntMessage) : Bool :=
  match channelScope m.message with
  | some n => decide (n < MAX_CHANNELS) && (channels.getD n none).isSome
  | none => true

/-- The error produced by a failing channel-scoped message. -/
def routeErr (m : AntMessage) : RouterError :=
  match channelScope m.message with
  | some n => if n ≥ MAX_CHANNELS then .ChannelOutOfBounds else .ChannelNotAssociated
  | none => .DriverError

/-- The value of `max_channels` after handling a message, given its previous
value: only a capabilities message changes it. -/
def capValue (msg : RxMessage) (old : Nat) : Nat :=
  match msg with
  | .Capabilities k => k
  | _ => old

/-- The events produced by handling one inbound message: the observer
invocation (when the callback is set) followed by the deliveries. -/
def handleTrace (cbSet : Bool) (channels : List (Option Nat)) (m : AntMessage) :
    List Event :=
  (if cbSet then [Event.observed m] else []) ++
    (deliveries channels m.message).map (fun cid => Event.delivered cid m)

/-- The events produced by the flush phase: every occupied slot's queue, in
slot order. -/
def flushTrace (w : World) : List Event :=
  (occupied w.channels).flatMap (fun cid => ((w.chans cid).outQueue).map Event.sent)

/-- The messages forwarded to the driver by the flush phase, in order. -/
def flushSends (w : World) : List TxMessage :=
  (occupied w.channels).flatMap (fun cid => (w.chans cid).outQueue)

/-- What a successful `handle_message` does to the state: the slot table, the
driver, the flags are untouched; `max_channels` is updated only by a
capabilities message; the trace grows by the observer invocation and the
deliveries; every channel object keeps its assignment and outbound queue and
receives the message as many times as it is delivered to. -/
def HandleOkSpec (w : World) (m : AntMessage) (w' : World) : Prop :=
  w'.channels = w.channels ∧
  w'.driver = w.driver ∧
  w'.cbSet = w.cbSet ∧
  w'.resetRestore = w.resetRestore ∧
  w'.maxChannels = capValue m.message w.maxChannels ∧
  w'.trace = w.trace ++ handleTrace w.cbSet w.channels m ∧
  ∀ x, (w'.chans x).assignment = (w.chans x).assignment ∧
       (w'.chans x).outQueue = (w.chans x).outQueue ∧
       (w'.chans x).received
         = (w.chans x).received
             ++ List.replicate ((deliveries w.channels m.message).count x) m

/-- Sequencing helper: add a list of fresh channel objects with `add_channel`,
stopping at the first error. -/
def addMany (r : Except (RouterError × World) World) (cids : List Nat) :
    Except (RouterError × World) World :=
  cids.foldl (fun acc cid =>
    match acc with
    | .error e => .error e
    | .ok w => addChannel w cid) r

/-- Concrete router states for evaluating the theorems: `q` gives each
channel object's initial outbound queue. -/
def mkWorld (channels : List (Option Nat)) (maxCh : Nat) (cb : Bool)
    (script : List (Option AntMessage)) (q : List (List TxMessage)) : World :=
  { channels := channels
    maxChannels := maxCh
    resetRestore := false
    cbSet := cb
    chans := fun cid =>
      { assignment := .UnAssigned, received := [], outQueue := q.getD cid [] }
    driver := ⟨script, []⟩
    trace := [] }

/-- The fake driver of the end-to-end scenario: answers the capability
request with "max 8 channels". -/
def capDriver8 : DriverSt := ⟨[none, some ⟨.Capabilities 8⟩, none], []⟩

/-- Construction over the cap-8 driver followed by nine `add_channel` calls
with distinct fresh channel objects. -/
def scenarioNine : Except (RouterError × World) World :=
  addMany (routerNew capDriver8) (List.range 9)

/-- Construction over the cap-8 driver followed by fifteen `add_channel`
calls with distinct fresh channel objects. -/
def scenarioFifteen : Except (RouterError × World) World :=
  addMany (routerNew capDriver8) (List.range 15)

/-- A driver that never produces a capabilities reply: thirty polls all
answer "no message". -/
def silentDriver : DriverSt := ⟨List.replicate 30 none, []⟩

/-- A driver whose capabilities reply arrives only at the 25th poll
iteration of Router::new (the purge consumes the leading entry, then
twenty-four empty polls, then the reply). -/
def boundaryDriver : DriverSt :=
  ⟨none :: (List.replicate 24 none ++ [some ⟨.Capabilities 8⟩, none]), []⟩

namespace HeartRate

/-- Modelled from the spec: DATA_PAGE_NUMBER_MASK is defined in the
heart_rate module, which is not among the sources; the spec says the page
number is the low 7 bits of byte 0 (the high bit is a toggle bit the codec
does not interpret), so the mask is 0x7F. -/
def DATA_PAGE_NUMBER_MASK : Nat := 0x7F

/-- DataPageNumbers of the heart-rate profile, as enumerated by the match in
`Display::parse_dp` (src/ant/src/plus/profiles/heart_rate/display.rs:117-165). -/
inductive DataPageNumbers
  | DefaultDataPage
  | CumulativeOperatingTime
  | ManufacturerInformation
  | ProductInformation
  | PreviousHeartBeat
  | SwimIntervalSummary
  | Capabilities
  | BatteryStatus
  | DeviceInformation
  | HRFeatureCommand
deriving DecidableEq

/-- Modelled from the spec: the PrimitiveEnum discriminant values of
`DataPageNumbers` live in the heart_rate module, which is not among the
sources; the values follow the ANT+ heart-rate profile page numbers the spec's
page names refer to (pages 0-7 and 9 received from the monitor, page 32 the
display-to-monitor feature command). -/
def DataPageNumbers.fromPrimitive (n : Nat) : Option DataPageNumbers :=
  if n = 0 then some .DefaultDataPage
  else if n = 1 then some .CumulativeOperatingTime
  else if n = 2 then some .ManufacturerInformation
  else if n = 3 then some .ProductInformation
  else if n = 4 then some .PreviousHeartBeat
  else if n = 5 then some .SwimIntervalSummary
  else if n = 6 then some .Capabilities
  else if n = 7 then some .BatteryStatus
  else if n = 9 then some .DeviceInformation
  else if n = 32 then some .HRFeatureCommand
  else none

/-- Modelled from the spec: MANUFACTURER_SPECIFIC_RANGE is defined in the
common datapages module, which is not among the sources; it is the reserved
manufacturer-specific page-number window 112..=127 of the ANT+ profiles the
spec's "reserved manufacturer-specific numeric range" refers to. -/
def inManufacturerSpecificRange (n : Nat) : Bool :=
  112 ≤ n && n ≤ 127

/-- MonitorTxDataPage: the decoded data pages.  Each page's `unpack` reads
fixed fields out of the 8 raw bytes and cannot fail on the pages below
(plain integer fields); the model keeps the raw bytes as the decoded
content. -/
inductive MonitorTxDataPage
  | DefaultDataPage (data : List Nat)
  | CumulativeOperatingTime (data : List Nat)
  | ManufacturerInformation (data : List Nat)
  | ProductInformation (data : List Nat)
  | PreviousHeartBeat (data : List Nat)
  | SwimIntervalSummary (data : List Nat)
  | Capabilities (data : List Nat)
  | BatteryStatus (data : List Nat)
  | DeviceInformation (data : List Nat)
  | ManufacturerSpecific (data : List Nat)
deriving DecidableEq

/-- The heart-rate profile error type (the `Error` of the heart_rate module);
only the data-page error variant is exercised by the display code under
study, plus a stand-in for errors surfaced by the inner message handler. -/
inductive HrError
  | UnsupportedDataPage (n : Nat)
  | HandlerError
deriving DecidableEq

/-- Display::parse_dp (src/ant/src/plus/profiles/heart_rate/display.rs:117-165):
mask byte 0, look the number up among the known page kinds, decode per kind
(feature-command is transmit-only and yields UnsupportedDataPage), fall back
to the manufacturer-specific layout inside the reserved range, otherwise
UnsupportedDataPage carrying the number. -/
def parse_dp (data : List Nat) : Except HrError MonitorTxDataPage :=
  let dp_num := data.headD 0 &&& DATA_PAGE_NUMBER_MASK
  match DataPageNumbers.fromPrimitive dp_num with
  | some dp =>
      match dp with
      | .DefaultDataPage => .ok (.DefaultDataPage data)
      | .CumulativeOperatingTime => .ok (.CumulativeOperatingTime data)
      | .ManufacturerInformation => .ok (.ManufacturerInformation data)
      | .ProductInformation => .ok (.ProductInformation data)
      | .PreviousHeartBeat => .ok (.PreviousHeartBeat data)
      | .SwimIntervalSummary => .ok (.SwimIntervalSummary data)
      | .Capabilities => .ok (.Capabilities data)
      | .BatteryStatus => .ok (.BatteryStatus data)
      | .DeviceInformation => .ok (.DeviceInformation data)
      | .HRFeatureCommand => .error (.UnsupportedDataPage dp_num)
  | none =>
      if inManufacturerSpecificRange dp_num then
        .ok (.ManufacturerSpecific data)
      else .error (.UnsupportedDataPage dp_num)

/-- TxMessageChannelConfig: a channel-configuration message produced by the
application's tx_message_callback; `set_channel` overwrites its channel. -/
structure TxMessageChannelConfig where
  tag : Nat
  channel : Nat
deriving DecidableEq

/-- TxMessageData: an application-supplied outbound data page;
`set_channel` overwrites its channel. -/
structure TxMessageData where
  tag : Nat
  channel : Nat
deriving DecidableEq

/-- The messages the display pushes into its tx sender. -/
inductive DisplayTx
  | handlerMsg (tag : Nat)
  | config (tag : Nat) (channel : Nat)
  | dataPage (tag : Nat) (channel : Nat)
deriving DecidableEq

/-- Modelled from the spec: the MessageHandler state machine
(plus/common/msg_handler.rs) is not among the sources.  The display uses it
only through `receive_message` (absorb a message, possibly erroring),
`send_message` (pop the next configuration/control message it wants sent),
`is_tx_ready`/`tx_sent` (a ready flag, reset by `tx_sent`), and
`get_channel`.  The model records received messages, holds the pending
configuration/control messages in a queue, and keeps the ready flag. -/
structure MessageHandler where
  channel : Nat
  txReady : Bool
  pending : List DisplayTx
  received : List AntMessage
deriving DecidableEq

/-- MessageHandler.receive_message, modelled as recording and never failing
(a failure is surfaced by `Display::process` through the data-page callback
and does not affect the send-priority logic under study). -/
def MessageHandler.receiveMessage (h : MessageHandler) (m : AntMessage) :
    MessageHandler :=
  { h with received := h.received ++ [m] }

/-- MessageHandler.send_message: pop the next pending message, if any. -/
def MessageHandler.sendMessage (h : MessageHandler) :
    Option DisplayTx × MessageHandler :=
  match h.pending with
  | [] => (none, h)
  | t :: rest => (some t, { h with pending := rest })

/-- MessageHandler.is_tx_ready. -/
def MessageHandler.isTxReady (h : MessageHandler) : Bool := h.txReady

/-- MessageHandler.tx_sent: reset the ready flag. -/
def MessageHandler.txSent (h : MessageHandler) : MessageHandler :=
  { h with txReady := false }

instance : DecidableEq (Except HrError MonitorTxDataPage) := fun a b =>
  match a, b with
  | .ok x, .ok y => if h : x = y then isTrue (by rw [h]) else isFalse (by simp [h])
  | .error x, .error y => if h : x = y then isTrue (by rw [h]) else isFalse (by simp [h])
  | .ok _, .error _ => isFalse (by simp)
  | .error _, .ok _ => isFalse (by simp)

/-- The Display state (src/ant/src/plus/profiles/heart_rate/display.rs:31-39):
the inner message handler, the four optional callbacks, and the two queues.
A callback returning a value is modelled by the `Option (Option _)` fields:
`none` = callback not set, `some v` = callback set and yielding `v` when
invoked this cycle.  `msgCbLog` and `dpCbLog` record the arguments passed to
the two observer callbacks. -/
structure Display where
  msgHandler : MessageHandler
  rxMessageCbSet : Bool
  rxDatapageCbSet : Bool
  txMessageCb : Option (Option TxMessageChannelConfig)
  txDatapageCb : Option (Option TxMessageData)
  tx : List DisplayTx
  rx : List AntMessage
  msgCbLog : List AntMessage
  dpCbLog : List (Except HrError MonitorTxDataPage)
deriving DecidableEq

/-- Display::handle_dp: parse the page and pass the result to the data-page
callback if set. -/
def handle_dp (d : Display) (data : List Nat) : Display :=
  let dp := parse_dp data
  if d.rxDatapageCbSet then { d with dpCbLog := d.dpCbLog ++ [dp] } else d

/-- One iteration of the drain loop in Display::process: observer callback,
data-page handling for broadcast/acknowledged data, then feed the message to
the inner handler (whose errors would go to the data-page callback; the
modelled handler does not fail). -/
def drainStep (d : Display) (m : AntMessage) : Display :=
  let d := if d.rxMessageCbSet then { d with msgCbLog := d.msgCbLog ++ [m] } else d
  let d := match m.message with
    | .BroadcastData _ data => handle_dp d data
    | .AcknowledgedData _ data => handle_dp d data
    | _ => d
  { d with msgHandler := d.msgHandler.receiveMessage m }

/-- The drain phase of Display::process: `while let Ok(msg) = self.rx.try_recv()`. -/
def Display.drain (d : Display) : Display :=
  d.rx.foldl drainStep { d with rx := [] }

/-- Display::process (src/ant/src/plus/profiles/heart_rate/display.rs:167-209):
drain, then send at most one message: the inner handler's pending message
first; else the tx_message_callback's config override (channel overwritten);
else, only when the handler is tx-ready, the tx_datapage_callback's page
(channel overwritten, `tx_sent` called); else nothing. -/
def Display.process (d : Display) : Display :=
  let d := Display.drain d
  match d.msgHandler.sendMessage with
  | (some t, h') => { d with msgHandler := h', tx := d.tx ++ [t] }
  | (none, h') =>
    let d := { d with msgHandler := h' }
    match d.txMessageCb with
    | some (some cfg) =>
        { d with tx := d.tx ++ [.config cfg.tag d.msgHandler.channel] }
    | _ =>
      if d.msgHandler.isTxReady then
        match d.txDatapageCb with
        | some (some page) =>
            { d with msgHandler := d.msgHandler.txSent,
                     tx := d.tx ++ [.dataPage page.tag d.msgHandler.channel] }
        | _ => d
      else d

/-- The emission rule as the spec states it (claim C7): strict priority —
handler-produced message, else config override, else (only when tx-ready) the
application data page, else nothing.  Written from the spec's words, to be
compared with `Display.process`. -/
def specEmission (h : MessageHandler) (cfgCb : Option (Option TxMessageChannelConfig))
    (dpCb : Option (Option TxMessageData)) : Option DisplayTx :=
  match h.pending with
  | t :: _ => some t
  | [] =>
    match cfgCb with
    | some (some cfg) => some (.config cfg.tag h.channel)
    | _ =>
      if h.isTxReady then
        match dpCb with
        | some (some page) => some (.dataPage page.tag h.channel)
        | _ => none
      else none

end HeartRate

/-! Basic lemmas about the state operations. -/

theorem setChan_self (f : Nat → Chan) (cid : Nat) (c : Chan) :
    setChan f cid c cid = c := by
  simp [setChan]

theorem setChan_ne (f : Nat → Chan) (cid x : Nat) (c : Chan) (h : x ≠ cid) :
    setChan f cid c x = f x := by
  simp [setChan, h]

theorem observe_spec (w : World) (m : AntMessage) :
    w.observe m
      = { w with trace := w.trace ++ (if w.cbSet then [Event.observed m] else []) } := by
  unfold World.observe
  by_cases h : w.cbSet
  · rw [if_pos h, if_pos h]
  · rw [if_neg h, if_neg h, List.append_nil]

@[simp] theorem observe_channels (w : World) (m : AntMessage) :
    (w.observe m).channels = w.channels := by
  rw [observe_spec]

@[simp] theorem observe_chans (w : World) (m : AntMessage) :
    (w.observe m).chans = w.chans := by
  rw [observe_spec]

@[simp] theorem observe_driver (w : World) (m : AntMessage) :
    (w.observe m).driver = w.driver := by
  rw [observe_spec]

@[simp] theorem observe_maxChannels (w : World) (m : AntMessage) :
    (w.observe m).maxChannels = w.maxChannels := by
  rw [observe_spec]

@[simp] theorem observe_cbSet (w : World) (m : AntMessage) :
    (w.observe m).cbSet = w.cbSet := by
  rw [observe_spec]

@[simp] theorem observe_resetRestore (w : World) (m : AntMessage) :
    (w.observe m).resetRestore = w.resetRestore := by
  rw [observe_spec]

theorem observe_trace (w : World) (m : AntMessage) :
    (w.observe m).trace = w.trace ++ (if w.cbSet then [Event.observed m] else []) := by
  rw [observe_spec]

@[simp] theorem deliver_channels (w : World) (cid : Nat) (m : AntMessage) :
    (w.deliver cid m).channels = w.channels := rfl

@[simp] theorem deliver_driver (w : World) (cid : Nat) (m : AntMessage) :
    (w.deliver cid m).driver = w.driver := rfl

@[simp] theorem deliver_maxChannels (w : World) (cid : Nat) (m : AntMessage) :
    (w.deliver cid m).maxChannels = w.maxChannels := rfl

@[simp] theorem deliver_cbSet (w : World) (cid : Nat) (m : AntMessage) :
    (w.deliver cid m).cbSet = w.cbSet := rfl

@[simp] theorem deliver_resetRestore (w : World) (cid : Nat) (m : AntMessage) :
    (w.deliver cid m).resetRestore = w.resetRestore := rfl

theorem deliver_trace (w : World) (cid : Nat) (m : AntMessage) :
    (w.deliver cid m).trace = w.trace ++ [Event.delivered cid m] := rfl

theorem deliver_chans_self (w : World) (cid : Nat) (m : AntMessage) :
    (w.deliver cid m).chans cid
      = { w.chans cid with received := (w.chans cid).received ++ [m] } := by
  simp [World.deliver, setChan_self]

theorem deliver_chans_ne (w : World) (cid x : Nat) (m : AntMessage) (h : x ≠ cid) :
    (w.deliver cid m).chans x = w.chans x := by
  simp [World.deliver, setChan_ne _ _ _ _ h]

@[simp] theorem deliver_assignment (w : World) (cid x : Nat) (m : AntMessage) :
    ((w.deliver cid m).chans x).assignment = (w.chans x).assignment := by
  by_cases h : x = cid
  · subst h; rw [deliver_chans_self]
  · rw [deliver_chans_ne _ _ _ _ h]

@[simp] theorem deliver_outQueue (w : World) (cid x : Nat) (m : AntMessage) :
    ((w.deliver cid m).chans x).outQueue = (w.chans x).outQueue := by
  by_cases h : x = cid
  · subst h; rw [deliver_chans_self]
  · rw [deliver_chans_ne _ _ _ _ h]

theorem deliver_received (w : World) (cid x : Nat) (m : AntMessage) :
    ((w.deliver cid m).chans x).received
      = (w.chans x).received ++ (if x = cid then [m] else []) := by
  by_cases h : x = cid
  · subst h; rw [deliver_chans_self]; simp
  · rw [deliver_chans_ne _ _ _ _ h]; simp [h]

@[simp] theorem sendDriver_channels (w : World) (tx : TxMessage) :
    (w.sendDriver tx).channels = w.channels := rfl

@[simp] theorem sendDriver_chans (w : World) (tx : TxMessage) :
    (w.sendDriver tx).chans = w.chans := rfl

@[simp] theorem sendDriver_maxChannels (w : World) (tx : TxMessage) :
    (w.sendDriver tx).maxChannels = w.maxChannels := rfl

@[simp] theorem sendDriver_cbSet (w : World) (tx : TxMessage) :
    (w.sendDriver tx).cbSet = w.cbSet := rfl

@[simp] theorem sendDriver_script (w : World) (tx : TxMessage) :
    (w.sendDriver tx).driver.script = w.driver.script := rfl

theorem sendDriver_sentLog (w : World) (tx : TxMessage) :
    (w.sendDriver tx).driver.sentLog = w.driver.sentLog ++ [tx] := rfl

theorem sendDriver_trace (w : World) (tx : TxMessage) :
    (w.sendDriver tx).trace = w.trace ++ [Event.sent tx] := rfl

/-! Characterization of the broadcast fold. -/

theorem bfold_channels (m : AntMessage) :
    ∀ (L : List Nat) (w : World),
      (L.foldl (fun acc cid => acc.deliver cid m) w).channels = w.channels
  | [], _ => rfl
  | a :: L, w => by
      rw [List.foldl_cons, bfold_channels m L, deliver_channels]

theorem bfold_driver (m : AntMessage) :
    ∀ (L : List Nat) (w : World),
      (L.foldl (fun acc cid => acc.deliver cid m) w).driver = w.driver
  | [], _ => rfl
  | a :: L, w => by
      rw [List.foldl_cons, bfold_driver m L, deliver_driver]

theorem bfold_maxChannels (m : AntMessage) :
    ∀ (L : List Nat) (w : World),
      (L.foldl (fun acc cid => acc.deliver cid m) w).maxChannels = w.maxChannels
  | [], _ => rfl
  | a :: L, w => by
      rw [List.foldl_cons, bfold_maxChannels m L, deliver_maxChannels]

theorem bfold_cbSet (m : AntMessage) :
    ∀ (L : List Nat) (w : World),
      (L.foldl (fun acc cid => acc.deliver cid m) w).cbSet = w.cbSet
  | [], _ => rfl
  | a :: L, w => by
      rw [List.foldl_cons, bfold_cbSet m L, deliver_cbSet]

theorem bfold_resetRestore (m : AntMessage) :
    ∀ (L : List Nat) (w : World),
      (L.foldl (fun acc cid => acc.deliver cid m) w).resetRestore = w.resetRestore
  | [], _ => rfl
  | a :: L, w => by
      rw [List.foldl_cons, bfold_resetRestore m L, deliver_resetRestore]

theorem bfold_trace (m : AntMessage) :
    ∀ (L : List Nat) (w : World),
      (L.foldl (fun acc cid => acc.deliver cid m) w).trace
        = w.trace ++ L.map (fun cid => Event.delivered cid m)
  | [], w => by simp
  | a :: L, w => by
      rw [List.foldl_cons, bfold_trace m L, deliver_trace]
      simp

theorem bfold_assignment (m : AntMessage) :
    ∀ (L : List Nat) (w : World) (x : Nat),
      ((L.foldl (fun acc cid => acc.deliver cid m) w).chans x).assignment
        = ((w.chans x)).assignment
  | [], _, _ => rfl
  | a :: L, w, x => by
      rw [List.foldl_cons, bfold_assignment m L, deliver_assignment]

theorem bfold_outQueue (m : AntMessage) :
    ∀ (L : List Nat) (w : World) (x : Nat),
      ((L.foldl (fun acc cid => acc.deliver cid m) w).chans x).outQueue
        = ((w.chans x)).outQueue
  | [], _, _ => rfl
  | a :: L, w, x => by
      rw [List.foldl_cons, bfold_outQueue m L, deliver_outQueue]

theorem bfold_received (m : AntMessage) :
    ∀ (L : List Nat) (w : World) (x : Nat),
      ((L.foldl (fun acc cid => acc.deliver cid m) w).chans x).received
        = (w.chans x).received ++ List.replicate (L.count x) m
  | [], w, x => by simp
  | a :: L, w, x => by
      rw [List.foldl_cons, bfold_received m L, deliver_received]
      by_cases h : x = a
      · subst h
        simp [List.count_cons, List.replicate_succ, List.append_assoc]
      · simp [List.count_cons, Ne.symm h, h]

theorem bfold_unchanged (m : AntMessage) (L : List Nat) (w : World) (x : Nat)
    (h : x ∉ L) :
    (L.foldl (fun acc cid => acc.deliver cid m) w).chans x = w.chans x := by
  induction L generalizing w with
  | nil => rfl
  | cons a L ih =>
      rw [List.foldl_cons, ih _ (fun hx => h (List.mem_cons_of_mem a hx)),
        deliver_chans_ne]
      intro hx
      exact h (hx ▸ List.mem_cons_self a L)

@[simp] theorem parseCapabilities_channels (w : World) (k : Nat) :
    (parseCapabilities w k).channels = w.channels := rfl

@[simp] theorem parseCapabilities_driver (w : World) (k : Nat) :
    (parseCapabilities w k).driver = w.driver := rfl

@[simp] theorem parseCapabilities_cbSet (w : World) (k : Nat) :
    (parseCapabilities w k).cbSet = w.cbSet := rfl

@[simp] theorem parseCapabilities_resetRestore (w : World) (k : Nat) :
    (parseCapabilities w k).resetRestore = w.resetRestore := rfl

@[simp] theorem parseCapabilities_maxChannels (w : World) (k : Nat) :
    (parseCapabilities w k).maxChannels = k := rfl

@[simp] theorem parseCapabilities_trace (w : World) (k : Nat) :
    (parseCapabilities w k).trace = w.trace := rfl

@[simp] theorem parseCapabilities_chans (w : World) (k : Nat) :
    (parseCapabilities w k).chans = w.chans := rfl

/-! Characterization of `handleMessage`. -/

theorem capValue_of_not_broadcastKind (msg : RxMessage) (old : Nat)
    (h : broadcastKind msg = false) : capValue msg old = old := by
  cases msg <;> simp_all [broadcastKind, capValue]

theorem broadcastKind_of_scoped (msg : RxMessage) (n : Nat)
    (h : channelScope msg = some n) : broadcastKind msg = false := by
  cases msg <;> simp_all [channelScope, broadcastKind]

theorem handleMessage_eq (w : World) (m : AntMessage) :
    handleMessage w m =
      match channelScope m.message with
      | some n => routeMessage (w.observe m) n m
      | none =>
          if broadcastKind m.message then
            .ok (parseCapabilities (broadcastMessage (w.observe m) m)
                  (capValue m.message (broadcastMessage (w.observe m) m).maxChannels))
          else .ok (w.observe m) := by
  cases m with
  | mk msg => cases msg <;> rfl

theorem handleMessage_ok (w : World) (m : AntMessage)
    (h : msgOk w.channels m = true) :
    ∃ w', handleMessage w m = .ok w' ∧ HandleOkSpec w m w' := by
  rw [handleMessage_eq]
  cases hscope : channelScope m.message with
  | some n =>
      simp only [msgOk, hscope, Bool.and_eq_true, decide_eq_true_eq,
        Option.isSome_iff_exists] at h
      obtain ⟨hn, cid, hcid⟩ := h
      simp only [hscope]
      refine ⟨(w.observe m).deliver cid m, ?_, ?_⟩
      · simp only [routeMessage]
        rw [if_neg (by omega), observe_channels, hcid]
      · have hdel : deliveries w.channels m.message = [cid] := by
          simp only [deliveries, hscope]
          rw [if_pos hn, hcid]
        refine ⟨by simp, by simp, by simp, by simp, ?_, ?_, ?_⟩
        · rw [deliver_maxChannels, observe_maxChannels,
            capValue_of_not_broadcastKind _ _ (broadcastKind_of_scoped _ _ hscope)]
        · rw [deliver_trace, observe_trace]
          unfold handleTrace
          rw [hdel, List.append_assoc]
          rfl
        · intro x
          refine ⟨by simp, by simp, ?_⟩
          rw [deliver_received, observe_chans, hdel]
          by_cases hx : x = cid
          · subst hx; simp
          · simp [hx, Ne.symm hx]
  | none =>
      simp only [hscope]
      by_cases hb : broadcastKind m.message = true
      · rw [if_pos hb]
        set bw := broadcastMessage (w.observe m) m with hbw
        have hocc : occupied ((w.observe m).channels) = occupied w.channels := by
          rw [observe_channels]
        have hdel : deliveries w.channels m.message = occupied w.channels := by
          simp only [deliveries, hscope]
          rw [if_pos hb]
        refine ⟨_, rfl, ?_⟩
        refine ⟨?_, ?_, ?_, ?_, ?_, ?_, ?_⟩
        · rw [parseCapabilities_channels, hbw]
          unfold broadcastMessage
          rw [bfold_channels, observe_channels]
        · rw [parseCapabilities_driver, hbw]
          unfold broadcastMessage
          rw [bfold_driver, observe_driver]
        · rw [parseCapabilities_cbSet, hbw]
          unfold broadcastMessage
          rw [bfold_cbSet, observe_cbSet]
        · rw [parseCapabilities_resetRestore, hbw]
          unfold broadcastMessage
          rw [bfold_resetRestore, observe_resetRestore]
        · rw [parseCapabilities_maxChannels, hbw]
          unfold broadcastMessage
          rw [bfold_maxChannels, observe_maxChannels]
        · rw [parseCapabilities_trace, hbw]
          unfold broadcastMessage
          rw [bfold_trace, observe_trace, hocc]
          unfold handleTrace
          rw [hdel, List.append_assoc]
        · intro x
          refine ⟨?_, ?_, ?_⟩
          · rw [parseCapabilities_chans, hbw]
            unfold broadcastMessage
            rw [bfold_assignment, observe_chans]
          · rw [parseCapabilities_chans, hbw]
            unfold broadcastMessage
            rw [bfold_outQueue, observe_chans]
          · rw [parseCapabilities_chans, hbw]
            unfold broadcastMessage
            rw [bfold_received, observe_chans, hocc, hdel]
      · rw [if_neg hb]
        have hb' : broadcastKind m.message = false := by
          revert hb
          cases broadcastKind m.message <;> simp
        have hdel : deliveries w.channels m.message = [] := by
          simp only [deliveries, hscope]
          rw [if_neg hb]
        refine ⟨_, rfl, ?_⟩
        refine ⟨by simp, by simp, by simp, by simp, ?_, ?_, ?_⟩
        · rw [observe_maxChannels, capValue_of_not_broadcastKind _ _ hb']
        · rw [observe_trace]
          unfold handleTrace
          rw [hdel]
          simp
        · intro x
          rw [observe_chans, hdel]
          simp

theorem handleMessage_err (w : World) (m : AntMessage)
    (h : msgOk w.channels m = false) :
    handleMessage w m = .error (routeErr m, w.observe m) := by
  rw [handleMessage_eq]
  cases hscope : channelScope m.message with
  | none =>
      simp only [msgOk, hscope] at h
      exact Bool.noConfusion h
  | some n =>
      simp only [msgOk, hscope] at h
      simp only [routeMessage, routeErr, hscope]
      by_cases hn : n < MAX_CHANNELS
      · have hnone : w.channels.getD n none = none := by
          simp only [Bool.and_eq_false_iff, decide_eq_false_iff_not] at h
          rcases h with h | h
          · omega
          · cases hgd : w.channels.getD n none with
            | none => rfl
            | some c => rw [hgd] at h; simp at h
        rw [if_neg (by omega), observe_channels, hnone, if_neg (by omega)]
      · rw [if_pos (by omega), if_pos (by omega)]

/-! Characterization of the drain loop. -/

theorem flatMap_congr {α β : Type} (L : List α) (f g : α → List β)
    (h : ∀ a ∈ L, f a = g a) : L.flatMap f = L.flatMap g := by
  induction L with
  | nil => rfl
  | cons a L ih =>
      rw [List.flatMap_cons, List.flatMap_cons,
        h a (List.mem_cons_self a L), ih (fun b hb => h b (List.mem_cons_of_mem a hb))]

theorem drainGo_cons_none (rest : List (Option AntMessage)) (w : World) :
    drainGo (none :: rest) w
      = .ok { w with driver := { w.driver with script := rest } } := rfl

theorem drainGo_cons_some (m : AntMessage) (tail : List (Option AntMessage))
    (w : World) :
    drainGo (some m :: tail) w
      = match handleMessage { w with driver := { w.driver with script := tail } } m with
        | .error e => .error e
        | .ok w2 => drainGo tail w2 := rfl

theorem drainGo_ok (msgs : List AntMessage) (rest : List (Option AntMessage)) :
    ∀ (w : World),
    w.driver.script = msgs.map some ++ none :: rest →
    (∀ m ∈ msgs, msgOk w.channels m = true) →
    ∃ w', drainGo w.driver.script w = .ok w' ∧
      w'.channels = w.channels ∧
      w'.driver.script = rest ∧
      w'.driver.sentLog = w.driver.sentLog ∧
      w'.cbSet = w.cbSet ∧
      w'.resetRestore = w.resetRestore ∧
      w'.trace = w.trace ++ msgs.flatMap (handleTrace w.cbSet w.channels) ∧
      (∀ x, (w'.chans x).assignment = (w.chans x).assignment ∧
            (w'.chans x).outQueue = (w.chans x).outQueue) := by
  induction msgs with
  | nil =>
      intro w hscript _
      rw [hscript]
      exact ⟨_, rfl, rfl, rfl, rfl, rfl, rfl, by simp, fun x => ⟨rfl, rfl⟩⟩
  | cons m msgs ih =>
      intro w hscript hok
      rw [hscript, List.map_cons, List.cons_append, drainGo_cons_some]
      set w1 : World :=
        { w with driver := { w.driver with script := List.map some msgs ++ none :: rest } }
        with hw1
      have hok1 : msgOk w1.channels m = true := hok m (List.mem_cons_self m msgs)
      obtain ⟨w2, hm, hc, hd, hcb, hrr, hmax, htr, hch⟩ := handleMessage_ok w1 m hok1
      rw [hm]
      have hscript2 : w2.driver.script = msgs.map some ++ none :: rest := by
        rw [hd]
      have hok2 : ∀ m' ∈ msgs, msgOk w2.channels m' = true := by
        intro m' hm'
        rw [hc]
        exact hok m' (List.mem_cons_of_mem m hm')
      obtain ⟨w3, hrun, h3c, h3s, h3l, h3cb, h3rr, h3tr, h3ch⟩ := ih w2 hscript2 hok2
      rw [hscript2] at hrun
      refine ⟨w3, hrun, ?_, h3s, ?_, ?_, ?_, ?_, ?_⟩
      · rw [h3c, hc]
      · rw [h3l, hd]
      · rw [h3cb, hcb]
      · rw [h3rr, hrr]
      · rw [h3tr, htr, hcb, hc, List.flatMap_cons, ← List.append_assoc]
      · intro x
        obtain ⟨ha, hq, _⟩ := hch x
        obtain ⟨ha3, hq3⟩ := h3ch x
        exact ⟨ha3.trans ha, hq3.trans hq⟩

theorem drainGo_err (pre : List AntMessage) (bad : AntMessage)
    (rest : List (Option AntMessage)) :
    ∀ (w : World),
    w.driver.script = pre.map some ++ some bad :: rest →
    (∀ m ∈ pre, msgOk w.channels m = true) →
    msgOk w.channels bad = false →
    ∃ w', drainGo w.driver.script w = .error (routeErr bad, w') ∧
      w'.channels = w.channels ∧
      w'.driver.script = rest ∧
      w'.driver.sentLog = w.driver.sentLog ∧
      w'.trace = w.trace ++ pre.flatMap (handleTrace w.cbSet w.channels)
                 ++ (if w.cbSet then [Event.observed bad] else []) ∧
      (∀ x, (w'.chans x).assignment = (w.chans x).assignment ∧
            (w'.chans x).outQueue = (w.chans x).outQueue) := by
  induction pre with
  | nil =>
      intro w hscript _ hbad
      rw [hscript, List.map_nil, List.nil_append, drainGo_cons_some]
      set w1 : World := { w with driver := { w.driver with script := rest } } with hw1
      have hbad1 : msgOk w1.channels bad = false := hbad
      rw [handleMessage_err w1 bad hbad1]
      refine ⟨w1.observe bad, rfl, by simp, ?_, ?_, ?_, ?_⟩
      · rw [observe_driver]
      · rw [observe_driver]
      · rw [observe_trace]
        simp
      · intro x
        rw [observe_chans]
        exact ⟨rfl, rfl⟩
  | cons m pre ih =>
      intro w hscript hok hbad
      rw [hscript, List.map_cons, List.cons_append, drainGo_cons_some]
      set w1 : World :=
        { w with driver := { w.driver with script := List.map some pre ++ some bad :: rest } }
        with hw1
      have hok1 : msgOk w1.channels m = true := hok m (List.mem_cons_self m pre)
      obtain ⟨w2, hm, hc, hd, hcb, hrr, hmax, htr, hch⟩ := handleMessage_ok w1 m hok1
      rw [hm]
      have hscript2 : w2.driver.script = pre.map some ++ some bad :: rest := by
        rw [hd]
      obtain ⟨w3, hrun, h3c, h3s, h3l, h3tr, h3ch⟩ :=
        ih w2 hscript2
          (fun m' hm' => by rw [hc]; exact hok m' (List.mem_cons_of_mem m hm'))
          (by rw [hc]; exact hbad)
      rw [hscript2] at hrun
      refine ⟨w3, hrun, ?_, h3s, ?_, ?_, ?_⟩
      · rw [h3c, hc]
      · rw [h3l, hd]
      · rw [h3tr, htr, hcb, hc, List.flatMap_cons]
        simp [List.append_assoc]
      · intro x
        obtain ⟨ha, hq, _⟩ := hch x
        obtain ⟨ha3, hq3⟩ := h3ch x
        exact ⟨ha3.trans ha, hq3.trans hq⟩

/-! Characterization of the flush phase. -/

theorem sfold_channels :
    ∀ (txs : List TxMessage) (w : World),
      (txs.foldl World.sendDriver w).channels = w.channels
  | [], _ => rfl
  | tx :: txs, w => by
      rw [List.foldl_cons, sfold_channels txs, sendDriver_channels]

theorem sfold_chans :
    ∀ (txs : List TxMessage) (w : World),
      (txs.foldl World.sendDriver w).chans = w.chans
  | [], _ => rfl
  | tx :: txs, w => by
      rw [List.foldl_cons, sfold_chans txs, sendDriver_chans]

theorem sfold_maxChannels :
    ∀ (txs : List TxMessage) (w : World),
      (txs.foldl World.sendDriver w).maxChannels = w.maxChannels
  | [], _ => rfl
  | tx :: txs, w => by
      rw [List.foldl_cons, sfold_maxChannels txs, sendDriver_maxChannels]

theorem sfold_cbSet :
    ∀ (txs : List TxMessage) (w : World),
      (txs.foldl World.sendDriver w).cbSet = w.cbSet
  | [], _ => rfl
  | tx :: txs, w => by
      rw [List.foldl_cons, sfold_cbSet txs, sendDriver_cbSet]

theorem sfold_resetRestore :
    ∀ (txs : List TxMessage) (w : World),
      (txs.foldl World.sendDriver w).resetRestore = w.resetRestore
  | [], _ => rfl
  | tx :: txs, w => by
      rw [List.foldl_cons, sfold_resetRestore txs]; rfl

theorem sfold_script :
    ∀ (txs : List TxMessage) (w : World),
      (txs.foldl World.sendDriver w).driver.script = w.driver.script
  | [], _ => rfl
  | tx :: txs, w => by
      rw [List.foldl_cons, sfold_script txs, sendDriver_script]

theorem sfold_sentLog :
    ∀ (txs : List TxMessage) (w : World),
      (txs.foldl World.sendDriver w).driver.sentLog = w.driver.sentLog ++ txs
  | [], w => by simp
  | tx :: txs, w => by
      rw [List.foldl_cons, sfold_sentLog txs, sendDriver_sentLog]
      simp

theorem sfold_trace :
    ∀ (txs : List TxMessage) (w : World),
      (txs.foldl World.sendDriver w).trace
        = w.trace ++ txs.map Event.sent
  | [], w => by simp
  | tx :: txs, w => by
      rw [List.foldl_cons, sfold_trace txs, sendDriver_trace]
      simp

theorem sendChannel_channels (w : World) (cid : Nat) :
    (sendChannel w cid).channels = w.channels := by
  unfold sendChannel
  rw [sfold_channels]

theorem sendChannel_maxChannels (w : World) (cid : Nat) :
    (sendChannel w cid).maxChannels = w.maxChannels := by
  unfold sendChannel
  rw [sfold_maxChannels]

theorem sendChannel_cbSet (w : World) (cid : Nat) :
    (sendChannel w cid).cbSet = w.cbSet := by
  unfold sendChannel
  rw [sfold_cbSet]

theorem sendChannel_resetRestore (w : World) (cid : Nat) :
    (sendChannel w cid).resetRestore = w.resetRestore := by
  unfold sendChannel
  rw [sfold_resetRestore]

theorem sendChannel_script (w : World) (cid : Nat) :
    (sendChannel w cid).driver.script = w.driver.script := by
  unfold sendChannel
  rw [sfold_script]

theorem sendChannel_sentLog (w : World) (cid : Nat) :
    (sendChannel w cid).driver.sentLog
      = w.driver.sentLog ++ (w.chans cid).outQueue := by
  unfold sendChannel
  rw [sfold_sentLog]

theorem sendChannel_trace (w : World) (cid : Nat) :
    (sendChannel w cid).trace
      = w.trace ++ ((w.chans cid).outQueue).map Event.sent := by
  unfold sendChannel
  rw [sfold_trace]

theorem sendChannel_chans_self (w : World) (cid : Nat) :
    (sendChannel w cid).chans cid = { w.chans cid with outQueue := [] } := by
  unfold sendChannel
  rw [sfold_chans]
  exact setChan_self w.chans cid _

theorem sendChannel_chans_ne (w : World) (cid x : Nat) (h : x ≠ cid) :
    (sendChannel w cid).chans x = w.chans x := by
  unfold sendChannel
  rw [sfold_chans]
  exact setChan_ne w.chans cid x _ h

theorem sendChannel_assignment (w : World) (cid x : Nat) :
    ((sendChannel w cid).chans x).assignment = (w.chans x).assignment := by
  by_cases h : x = cid
  · subst h; rw [sendChannel_chans_self]
  · rw [sendChannel_chans_ne _ _ _ h]

theorem sendChannel_received (w : World) (cid x : Nat) :
    ((sendChannel w cid).chans x).received = (w.chans x).received := by
  by_cases h : x = cid
  · subst h; rw [sendChannel_chans_self]
  · rw [sendChannel_chans_ne _ _ _ h]

theorem flushFold (L : List Nat) :
    ∀ (w : World), L.Nodup →
    (L.foldl sendChannel w).channels = w.channels ∧
    (L.foldl sendChannel w).maxChannels = w.maxChannels ∧
    (L.foldl sendChannel w).cbSet = w.cbSet ∧
    (L.foldl sendChannel w).resetRestore = w.resetRestore ∧
    (L.foldl sendChannel w).driver.script = w.driver.script ∧
    (L.foldl sendChannel w).driver.sentLog
      = w.driver.sentLog ++ L.flatMap (fun cid => (w.chans cid).outQueue) ∧
    (L.foldl sendChannel w).trace
      = w.trace ++ L.flatMap (fun cid => ((w.chans cid).outQueue).map Event.sent) ∧
    (∀ cid ∈ L, ((L.foldl sendChannel w).chans cid).outQueue = []) ∧
    (∀ x, x ∉ L → (L.foldl sendChannel w).chans x = w.chans x) ∧
    (∀ x, ((L.foldl sendChannel w).chans x).assignment = (w.chans x).assignment ∧
          ((L.foldl sendChannel w).chans x).received = (w.chans x).received) := by
  induction L with
  | nil =>
      intro w _
      refine ⟨rfl, rfl, rfl, rfl, rfl, by simp, by simp, ?_, ?_, ?_⟩
      · intro cid hc
        cases hc
      · intro x _
        rfl
      · intro x
        exact ⟨rfl, rfl⟩
  | cons a L ih =>
      intro w hnd
      have hna : a ∉ L := (List.nodup_cons.mp hnd).1
      have hndL : L.Nodup := (List.nodup_cons.mp hnd).2
      obtain ⟨ihc, ihm, ihcb, ihrr, ihs, ihl, ihtr, ihq, ihout, ihkeep⟩ :=
        ih (sendChannel w a) hndL
      rw [List.foldl_cons]
      have hqcongr : ∀ cid ∈ L, ((sendChannel w a).chans cid).outQueue
          = (w.chans cid).outQueue := by
        intro cid hc
        rw [sendChannel_chans_ne]
        intro he
        exact hna (he ▸ hc)
      refine ⟨?_, ?_, ?_, ?_, ?_, ?_, ?_, ?_, ?_, ?_⟩
      · rw [ihc, sendChannel_channels]
      · rw [ihm, sendChannel_maxChannels]
      · rw [ihcb, sendChannel_cbSet]
      · rw [ihrr, sendChannel_resetRestore]
      · rw [ihs, sendChannel_script]
      · rw [ihl, sendChannel_sentLog, List.flatMap_cons, ← List.append_assoc]
        congr 1
        exact flatMap_congr L _ _ hqcongr
      · rw [ihtr, sendChannel_trace, List.flatMap_cons, ← List.append_assoc]
        congr 1
        exact flatMap_congr L _ _ (fun cid hc => by rw [hqcongr cid hc])
      · intro cid hc
        rcases List.mem_cons.mp hc with he | hmem
        · subst he
          rw [ihout cid hna, sendChannel_chans_self]
        · exact ihq cid hmem
      · intro x hx
        rw [ihout x (fun hmem => hx (List.mem_cons_of_mem a hmem)),
          sendChannel_chans_ne]
        intro he
        exact hx (he ▸ List.mem_cons_self a L)
      · intro x
        obtain ⟨iha, ihr⟩ := ihkeep x
        exact ⟨iha.trans (sendChannel_assignment w a x),
          ihr.trans (sendChannel_received w a x)⟩

/-! The capabilities poll loop of Router::new. -/

theorem Chan_ext (a b : Chan) (h1 : a.assignment = b.assignment)
    (h2 : a.received = b.received) (h3 : a.outQueue = b.outQueue) : a = b := by
  cases a
  cases b
  simp_all

theorem occupied_replicate_none :
    ∀ n : Nat, occupied (List.replicate n (none : Option Nat)) = []
  | 0 => rfl
  | n + 1 => by
      rw [List.replicate_succ]
      show occupied (List.replicate n none) = []
      exact occupied_replicate_none n

theorem process_none_head (w : World) (rest : List (Option AntMessage))
    (hocc : occupied w.channels = []) (hh : w.driver.script = none :: rest) :
    ∃ w', process w = .ok w' ∧
      w'.channels = w.channels ∧ w'.maxChannels = w.maxChannels ∧
      w'.cbSet = w.cbSet ∧ w'.resetRestore = w.resetRestore ∧
      w'.chans = w.chans ∧ w'.driver.script = rest ∧
      w'.driver.sentLog = w.driver.sentLog ∧ w'.trace = w.trace := by
  unfold process drain
  rw [hh, drainGo_cons_none]
  set w1 : World := { w with driver := { w.driver with script := rest } } with hw1
  have hocc1 : occupied w1.channels = [] := hocc
  have hf : flush w1 = w1 := by
    unfold flush
    rw [hocc1]
    rfl
  refine ⟨w1, ?_, rfl, rfl, rfl, rfl, rfl, rfl, rfl, rfl⟩
  show Except.ok (flush w1) = Except.ok w1
  rw [hf]

theorem process_cap (w : World) (k : Nat) (rest : List (Option AntMessage))
    (hocc : occupied w.channels = []) (hcb : w.cbSet = false)
    (hh : w.driver.script = some ⟨.Capabilities k⟩ :: none :: rest) :
    ∃ w', process w = .ok w' ∧
      w'.channels = w.channels ∧ w'.maxChannels = k ∧
      w'.cbSet = w.cbSet ∧ w'.resetRestore = w.resetRestore ∧
      w'.chans = w.chans ∧ w'.driver.script = rest ∧
      w'.driver.sentLog = w.driver.sentLog ∧ w'.trace = w.trace := by
  unfold process drain
  rw [hh, drainGo_cons_some]
  set w1 : World := { w with driver := { w.driver with script := none :: rest } }
    with hw1
  have hok1 : msgOk w1.channels ⟨.Capabilities k⟩ = true := rfl
  obtain ⟨w2, hm, hc, hd, hcbeq, hrr, hmax, htr, hch⟩ :=
    handleMessage_ok w1 ⟨.Capabilities k⟩ hok1
  rw [hm]
  have hocc1 : occupied w1.channels = [] := hocc
  have hdel : deliveries w1.channels (RxMessage.Capabilities k) = [] := by
    simp only [deliveries, channelScope, broadcastKind, if_pos]
    exact hocc1
  have htr' : w2.trace = w.trace := by
    rw [htr]
    show w.trace ++ handleTrace w1.cbSet w1.channels ⟨.Capabilities k⟩ = w.trace
    unfold handleTrace
    rw [hdel]
    have : w1.cbSet = false := hcb
    rw [this]
    simp
  set w3 : World := { w2 with driver := { w2.driver with script := rest } } with hw3
  have hc3 : w3.channels = w.channels := hc
  have hocc3 : occupied w3.channels = [] := by rw [hc3]; exact hocc
  have hf : flush w3 = w3 := by
    unfold flush
    rw [hocc3]
    rfl
  refine ⟨w3, ?_, hc3, ?_, ?_, ?_, ?_, rfl, ?_, htr'⟩
  · show Except.ok (flush w3) = Except.ok w3
    rw [hf]
  · exact hmax
  · exact hcbeq
  · exact hrr
  · funext x
    obtain ⟨ha, hq, hr⟩ := hch x
    refine Chan_ext _ _ ha ?_ hq
    rw [hr, hdel]
    simp
  · show w2.driver.sentLog = w.driver.sentLog
    rw [hd]

theorem newGo_succ (fuel : Nat) (w : World) :
    newGo (fuel + 1) w
      = if w.maxChannels = 0 then
          match process w with
          | .error e => .error e
          | .ok w' => newGo fuel w'
        else .ok w := rfl

theorem newGo_silent :
    ∀ (fuel : Nat) (w : World) (rest : List (Option AntMessage)),
    w.maxChannels = 0 → occupied w.channels = [] →
    w.driver.script = List.replicate fuel none ++ rest →
    ∃ w', newGo fuel w = .error (.FailedToGetCapabilities, w') ∧
      w'.channels = w.channels ∧ w'.maxChannels = 0 ∧ w'.cbSet = w.cbSet ∧
      w'.chans = w.chans ∧ w'.driver.script = rest ∧
      w'.driver.sentLog = w.driver.sentLog ∧ w'.trace = w.trace := by
  intro fuel
  induction fuel with
  | zero =>
      intro w rest hmax hocc hh
      exact ⟨w, rfl, rfl, hmax, rfl, rfl, hh, rfl, rfl⟩
  | succ fuel ih =>
      intro w rest hmax hocc hh
      rw [newGo_succ, if_pos hmax]
      rw [List.replicate_succ, List.cons_append] at hh
      obtain ⟨w2, hp, hc, hm, hcb, hrr, hch, hs, hl, htr⟩ :=
        process_none_head w _ hocc hh
      rw [hp]
      obtain ⟨w3, hrun, h3c, h3m, h3cb, h3ch, h3s, h3l, h3tr⟩ :=
        ih w2 rest (by rw [hm, hmax]) (by rw [hc]; exact hocc) hs
      refine ⟨w3, hrun, h3c.trans hc, h3m, h3cb.trans hcb, h3ch.trans hch, h3s,
        h3l.trans hl, h3tr.trans htr⟩

theorem newGo_cap :
    ∀ (j : Nat) (fuel : Nat) (w : World) (k : Nat)
      (rest : List (Option AntMessage)),
    j < fuel → 0 < k →
    w.maxChannels = 0 → occupied w.channels = [] → w.cbSet = false →
    w.driver.script
      = List.replicate j none ++ some ⟨.Capabilities k⟩ :: none :: rest →
    ∃ w', newGo fuel w
        = (if fuel = j + 1 then .error (.FailedToGetCapabilities, w') else .ok w') ∧
      w'.channels = w.channels ∧ w'.maxChannels = k ∧ w'.cbSet = w.cbSet ∧
      w'.chans = w.chans ∧ w'.driver.script = rest ∧
      w'.driver.sentLog = w.driver.sentLog ∧ w'.trace = w.trace := by
  intro j
  induction j with
  | zero =>
      intro fuel w k rest hj hk hmax hocc hcb hh
      rw [List.replicate_zero, List.nil_append] at hh
      obtain ⟨fuel, rfl⟩ : ∃ f, fuel = f + 1 := ⟨fuel - 1, by omega⟩
      rw [newGo_succ, if_pos hmax]
      obtain ⟨w2, hp, hc, hm, hcb2, hrr, hch, hs, hl, htr⟩ :=
        process_cap w k rest hocc hcb hh
      rw [hp]
      cases fuel with
      | zero =>
          refine ⟨w2, ?_, hc, hm, hcb2, hch, hs, hl, htr⟩
          show newGo 0 w2
              = if 0 + 1 = 0 + 1 then
                  Except.error (RouterError.FailedToGetCapabilities, w2)
                else Except.ok w2
          rw [if_pos rfl]
          rfl
      | succ f =>
          refine ⟨w2, ?_, hc, hm, hcb2, hch, hs, hl, htr⟩
          show newGo (f + 1) w2
              = if f + 1 + 1 = 0 + 1 then
                  Except.error (RouterError.FailedToGetCapabilities, w2)
                else Except.ok w2
          rw [if_neg (by omega), newGo_succ, if_neg (by rw [hm]; omega)]
  | succ j ih =>
      intro fuel w k rest hj hk hmax hocc hcb hh
      obtain ⟨fuel, rfl⟩ : ∃ f, fuel = f + 1 := ⟨fuel - 1, by omega⟩
      rw [newGo_succ, if_pos hmax]
      rw [List.replicate_succ, List.cons_append] at hh
      obtain ⟨w2, hp, hc, hm, hcb2, hrr, hch, hs, hl, htr⟩ :=
        process_none_head w _ hocc hh
      rw [hp]
      obtain ⟨w3, hrun, h3c, h3m, h3cb, h3ch, h3s, h3l, h3tr⟩ :=
        ih fuel w2 k rest (by omega) hk (by rw [hm, hmax])
          (by rw [hc]; exact hocc) (by rw [hcb2]; exact hcb) hs
      refine ⟨w3, ?_, h3c.trans hc, h3m, h3cb.trans hcb2, h3ch.trans hch, h3s,
        h3l.trans hl, h3tr.trans htr⟩
      show newGo fuel w2
          = if fuel + 1 = j + 1 + 1 then
              Except.error (RouterError.FailedToGetCapabilities, w3)
            else Except.ok w3
      rw [hrun]
      by_cases hf : fuel = j + 1
      · rw [if_pos hf, if_pos (by omega)]
      · rw [if_neg hf, if_neg (by omega)]

theorem routerNew_eq (d : DriverSt) :
    routerNew d
      = newGo ROUTER_CAPABILITIES_RETRIES
          (initWorld ⟨purge d.script,
            (d.sentLog ++ [TxMessage.ResetSystem]) ++ [TxMessage.RequestMessage 0]⟩) := rfl

/-! Helper facts about the remove_channel pointer comparison. -/

theorem removeChannel_caller (w : World) (cid : Nat) :
    removeChannel w (.caller cid) = .error (.ChannelNotAssociated, w) := by
  have h : (flattenSlots w.channels).findIdx?
      (fun p => ptrEqSlotRef p.1 (.caller cid)) = none :=
    List.findIdx?_eq_none_iff.mpr (fun p _ => rfl)
  unfold removeChannel
  rw [h]

/-! Claim theorems. -/

/-- C1: the claim says `remove_channel` succeeds whenever some slot's
occupant is the same underlying shared object as the given handle.  The code
is wrong: `std::ptr::eq(x, channel)` compares the addresses of the two `&Rc`
references themselves (not the pointees, as `Rc::ptr_eq` would), and the
caller's reference can never alias the `Rc` stored in the router's own array
while `remove_channel` holds `&mut self`, so the position search never
matches and the call always fails with `ChannelNotAssociated`, leaving the
state unchanged — here shown at the concrete failing input: a router whose
slot 0 holds the channel object with identity 0, removed through a
caller-held handle to that same object. -/
theorem c1_remove_channel_code_bug :
    resultError (match addMany (routerNew capDriver8) [0] with
                 | .error e => .error e
                 | .ok w => removeChannel w (.caller 0)) = some .ChannelNotAssociated
    ∧ (resultState (match addMany (routerNew capDriver8) [0] with
                    | .error e => .error e
                    | .ok w => removeChannel w (.caller 0))).channels.getD 0 none
        = some 0 := by
  constructor
  · rfl
  · rfl

/-- C8: `add_channel` stores the channel in the first (lowest-index) empty
slot found by linear scan and stamps that index on the channel via
`set_channel`; it fails with `OutOfChannels` exactly when every one of the 15
slots is occupied, whatever order they were filled in. -/
theorem c8_add_channel_first_free (w : World) (cid : Nat)
    (hlen : w.channels.length = MAX_CHANNELS) :
    (∀ i, i < w.channels.length → w.channels.getD i none = none →
      (∀ j, j < i → (w.channels.getD j none).isSome = true) →
      ∃ w', addChannel w cid = .ok w' ∧
        w'.channels = w.channels.set i (some cid) ∧
        (w'.chans cid).assignment = .Assigned i ∧
        (∀ x, x ≠ cid → w'.chans x = w.chans x)) ∧
    ((∀ j, j < w.channels.length → (w.channels.getD j none).isSome = true) →
      addChannel w cid = .error (.OutOfChannels, w)) := by
  constructor
  · intro i hi hfree hbefore
    have hfind : w.channels.findIdx? Option.isNone = some i := by
      rw [List.findIdx?_eq_some_iff_getElem]
      refine ⟨hi, ?_, ?_⟩
      · have : w.channels.getD i none = w.channels[i] := by
          rw [List.getD_eq_getElem?_getD, List.getElem?_eq_getElem hi]
          rfl
        rw [this] at hfree
        rw [hfree]
        rfl
      · intro j hji
        have hj : j < w.channels.length := Nat.lt_trans hji hi
        have : w.channels.getD j none = w.channels[j] := by
          rw [List.getD_eq_getElem?_getD, List.getElem?_eq_getElem hj]
          rfl
        have hs := hbefore j hji
        rw [this] at hs
        simp [Option.isNone_iff_eq_none]
        intro hnone
        rw [hnone] at hs
        exact Bool.noConfusion hs
    unfold addChannel
    rw [hfind]
    refine ⟨_, rfl, rfl, ?_, ?_⟩
    · show (setChan w.chans cid _ cid).assignment = _
      rw [setChan_self]
    · intro x hx
      show setChan w.chans cid _ x = w.chans x
      rw [setChan_ne _ _ _ _ hx]
  · intro hfull
    have hfind : w.channels.findIdx? Option.isNone = none := by
      rw [List.findIdx?_eq_none_iff]
      intro x hx
      obtain ⟨i, hi, hget⟩ := List.mem_iff_getElem.mp hx
      have : w.channels.getD i none = w.channels[i] := by
        rw [List.getD_eq_getElem?_getD, List.getElem?_eq_getElem hi]
        rfl
      have hs := hfull i hi
      rw [this, hget] at hs
      cases x with
      | none => exact Bool.noConfusion hs
      | some v => rfl
    unfold addChannel
    rw [hfind]

/-- C9: `add_channel_at_index` fails with `ChannelOutOfBounds` when the index
is at least the hardware-reported `max_channels`, fails with
`ChannelAlreadyAssigned` when the index is in range but the slot is occupied,
and otherwise stamps the index on the channel via `set_channel` and stores
it.  The bounds hypotheses reflect the real table (15 slots) and real
hardware capacities (at most 15 channels, per the `MAX_CHANNELS` comment in
the source); beyond them the Rust slot access would panic. -/
theorem c9_add_channel_at_index (w : World) (cid index : Nat)
    (hlen : w.channels.length = MAX_CHANNELS)
    (hmax : w.maxChannels ≤ MAX_CHANNELS) :
    (index ≥ w.maxChannels →
      addChannelAtIndex w cid index = .error (.ChannelOutOfBounds, w)) ∧
    (index < w.maxChannels → (w.channels.getD index none).isSome = true →
      addChannelAtIndex w cid index = .error (.ChannelAlreadyAssigned, w)) ∧
    (index < w.maxChannels → w.channels.getD index none = none →
      ∃ w', addChannelAtIndex w cid index = .ok w' ∧
        w'.channels = w.channels.set index (some cid) ∧
        (w'.chans cid).assignment = .Assigned index ∧
        (∀ x, x ≠ cid → w'.chans x = w.chans x)) := by
  refine ⟨?_, ?_, ?_⟩
  · intro hge
    unfold addChannelAtIndex
    rw [if_pos hge]
  · intro hlt hsome
    unfold addChannelAtIndex
    rw [if_neg (by omega), if_pos hsome]
  · intro hlt hnone
    unfold addChannelAtIndex
    rw [if_neg (by omega), if_neg (by rw [hnone]; exact Bool.false_ne_true)]
    refine ⟨_, rfl, rfl, ?_, ?_⟩
    · show (setChan w.chans cid _ cid).assignment = _
      rw [setChan_self]
    · intro x hx
      show setChan w.chans cid _ x = w.chans x
      rw [setChan_ne _ _ _ _ hx]

/-- Witness for C8: on a table whose slot 0 is taken and slots 1-14 are
free, `add_channel` picks slot 1 and stamps it; on a fully occupied table it
fails with `OutOfChannels`. -/
theorem c8_witness :
    (∃ w', addChannel (mkWorld (some 5 :: List.replicate 14 none) 8 false [] []) 7
        = .ok w' ∧
      w'.channels
        = (mkWorld (some 5 :: List.replicate 14 none) 8 false [] []).channels.set 1
            (some 7) ∧
      (w'.chans 7).assignment = .Assigned 1 ∧
      (∀ x, x ≠ 7 →
        w'.chans x
          = (mkWorld (some 5 :: List.replicate 14 none) 8 false [] []).chans x)) ∧
    (addChannel (mkWorld ((List.range 15).map some) 8 false [] []) 99
      = .error (.OutOfChannels, mkWorld ((List.range 15).map some) 8 false [] [])) :=
  ⟨(c8_add_channel_first_free
      (mkWorld (some 5 :: List.replicate 14 none) 8 false [] []) 7 (by decide)).1
      1 (by decide) (by decide) (by decide),
   (c8_add_channel_first_free
      (mkWorld ((List.range 15).map some) 8 false [] []) 99 (by decide)).2
      (by decide)⟩

/-- Witness for C9: with `max_channels = 8` and slot 0 occupied, index 9 is
out of bounds, index 0 is already assigned, and index 3 succeeds with the
index stamped on the channel. -/
theorem c9_witness :
    (addChannelAtIndex (mkWorld (some 5 :: List.replicate 14 none) 8 false [] []) 7 9
      = .error (.ChannelOutOfBounds,
          mkWorld (some 5 :: List.replicate 14 none) 8 false [] [])) ∧
    (addChannelAtIndex (mkWorld (some 5 :: List.replicate 14 none) 8 false [] []) 7 0
      = .error (.ChannelAlreadyAssigned,
          mkWorld (some 5 :: List.replicate 14 none) 8 false [] [])) ∧
    (∃ w', addChannelAtIndex
        (mkWorld (some 5 :: List.replicate 14 none) 8 false [] []) 7 3 = .ok w' ∧
      w'.channels
        = (mkWorld (some 5 :: List.replicate 14 none) 8 false [] []).channels.set 3
            (some 7) ∧
      (w'.chans 7).assignment = .Assigned 3 ∧
      (∀ x, x ≠ 7 →
        w'.chans x
          = (mkWorld (some 5 :: List.replicate 14 none) 8 false [] []).chans x)) :=
  ⟨(c9_add_channel_at_index (mkWorld (some 5 :: List.replicate 14 none) 8 false [] [])
      7 9 (by decide) (by decide)).1 (by decide),
   (c9_add_channel_at_index (mkWorld (some 5 :: List.replicate 14 none) 8 false [] [])
      7 0 (by decide) (by decide)).2.1 (by decide) (by decide),
   (c9_add_channel_at_index (mkWorld (some 5 :: List.replicate 14 none) 8 false [] [])
      7 3 (by decide) (by decide)).2.2 (by decide) (by decide)⟩

/-- C4: an inbound channel-scoped message (broadcast data addressed to
channel `n`) is delivered via `receive_message` only to the occupant of slot
`n`, failing with `ChannelOutOfBounds` when `n` is at least the fixed table
size and with `ChannelNotAssociated` when slot `n` is empty; a capabilities
message is delivered to every occupied slot and sets `max_channels` to the
reported count; an event-filter message is delivered to no channel. -/
theorem c4_handle_message_dispatch (w : World) (n maxAnt : Nat) (data : List Nat) :
    (n ≥ MAX_CHANNELS →
      handleMessage w ⟨.BroadcastData n data⟩
        = .error (.ChannelOutOfBounds, w.observe ⟨.BroadcastData n data⟩)) ∧
    (n < MAX_CHANNELS → w.channels.getD n none = none →
      handleMessage w ⟨.BroadcastData n data⟩
        = .error (.ChannelNotAssociated, w.observe ⟨.BroadcastData n data⟩)) ∧
    (∀ cid, n < MAX_CHANNELS → w.channels.getD n none = some cid →
      ∃ w', handleMessage w ⟨.BroadcastData n data⟩ = .ok w' ∧
        (w'.chans cid).received
          = (w.chans cid).received ++ [⟨.BroadcastData n data⟩] ∧
        (∀ x, x ≠ cid → w'.chans x = w.chans x) ∧
        w'.channels = w.channels ∧ w'.maxChannels = w.maxChannels) ∧
    ((occupied w.channels).Nodup →
      ∃ w', handleMessage w ⟨.Capabilities maxAnt⟩ = .ok w' ∧
        w'.maxChannels = maxAnt ∧
        (∀ cid, cid ∈ occupied w.channels →
          (w'.chans cid).received
            = (w.chans cid).received ++ [⟨.Capabilities maxAnt⟩]) ∧
        (∀ x, x ∉ occupied w.channels → w'.chans x = w.chans x)) ∧
    (handleMessage w ⟨.EventFilter⟩ = .ok (w.observe ⟨.EventFilter⟩) ∧
      (w.observe ⟨.EventFilter⟩).chans = w.chans) := by
  refine ⟨?_, ?_, ?_, ?_, rfl, observe_chans w _⟩
  · intro hn
    have hbad : msgOk w.channels ⟨.BroadcastData n data⟩ = false := by
      simp only [msgOk, channelScope]
      rw [decide_eq_false (by omega)]
      rfl
    have herr : routeErr ⟨.BroadcastData n data⟩ = .ChannelOutOfBounds := by
      simp only [routeErr, channelScope]
      rw [if_pos hn]
    rw [handleMessage_err _ _ hbad, herr]
  · intro hn hnone
    have hbad : msgOk w.channels ⟨.BroadcastData n data⟩ = false := by
      simp only [msgOk, channelScope]
      rw [hnone]
      simp
    have herr : routeErr ⟨.BroadcastData n data⟩ = .ChannelNotAssociated := by
      simp only [routeErr, channelScope]
      rw [if_neg (by omega)]
    rw [handleMessage_err _ _ hbad, herr]
  · intro cid hn hcid
    have hok : msgOk w.channels ⟨.BroadcastData n data⟩ = true := by
      simp only [msgOk, channelScope]
      rw [hcid]
      simp [hn]
    obtain ⟨w', hm, hc, hd, hcb, hrr, hmax, htr, hch⟩ := handleMessage_ok _ _ hok
    have hdel : deliveries w.channels (RxMessage.BroadcastData n data) = [cid] := by
      simp only [deliveries, channelScope]
      rw [if_pos hn, hcid]
    refine ⟨w', hm, ?_, ?_, hc, by rw [hmax]; rfl⟩
    · obtain ⟨_, _, hr⟩ := hch cid
      rw [hr, hdel]
      simp [List.count_cons]
    · intro x hx
      obtain ⟨ha, hq, hr⟩ := hch x
      refine Chan_ext _ _ ha ?_ hq
      rw [hr, hdel]
      simp [List.count_cons, Ne.symm hx]
  · intro hnd
    obtain ⟨w', hm, hc, hd, hcb, hrr, hmax, htr, hch⟩ :=
      handleMessage_ok w ⟨.Capabilities maxAnt⟩ rfl
    have hdel : deliveries w.channels (RxMessage.Capabilities maxAnt)
        = occupied w.channels := rfl
    refine ⟨w', hm, by rw [hmax]; rfl, ?_, ?_⟩
    · intro cid hmem
      obtain ⟨_, _, hr⟩ := hch cid
      rw [hr, hdel, List.count_eq_one_of_mem hnd hmem]
      simp
    · intro x hx
      obtain ⟨ha, hq, hr⟩ := hch x
      refine Chan_ext _ _ ha ?_ hq
      rw [hr, hdel, List.count_eq_zero_of_not_mem hx]
      simp

/-- Witness for C4: a table whose only occupant is object 42 in slot 3; a
broadcast to channel 20 is out of bounds, to channel 1 not associated, to
channel 3 delivered exactly to object 42; a capabilities message reaches
object 42 and sets `max_channels` to 4. -/
theorem c4_witness :
    (handleMessage (mkWorld (none :: none :: none :: some 42 :: List.replicate 11 none)
        8 false [] []) ⟨.BroadcastData 20 [1]⟩
      = .error (.ChannelOutOfBounds,
          (mkWorld (none :: none :: none :: some 42 :: List.replicate 11 none)
            8 false [] []).observe ⟨.BroadcastData 20 [1]⟩)) ∧
    (handleMessage (mkWorld (none :: none :: none :: some 42 :: List.replicate 11 none)
        8 false [] []) ⟨.BroadcastData 1 [1]⟩
      = .error (.ChannelNotAssociated,
          (mkWorld (none :: none :: none :: some 42 :: List.replicate 11 none)
            8 false [] []).observe ⟨.BroadcastData 1 [1]⟩)) ∧
    (∃ w', handleMessage
        (mkWorld (none :: none :: none :: some 42 :: List.replicate 11 none)
          8 false [] []) ⟨.BroadcastData 3 [1]⟩ = .ok w' ∧
      (w'.chans 42).received
        = ((mkWorld (none :: none :: none :: some 42 :: List.replicate 11 none)
            8 false [] []).chans 42).received ++ [⟨.BroadcastData 3 [1]⟩] ∧
      (∀ x, x ≠ 42 →
        w'.chans x
          = (mkWorld (none :: none :: none :: some 42 :: List.replicate 11 none)
              8 false [] []).chans x) ∧
      w'.channels
        = (mkWorld (none :: none :: none :: some 42 :: List.replicate 11 none)
            8 false [] []).channels ∧
      w'.maxChannels
        = (mkWorld (none :: none :: none :: some 42 :: List.replicate 11 none)
            8 false [] []).maxChannels) ∧
    (∃ w', handleMessage
        (mkWorld (none :: none :: none :: some 42 :: List.replicate 11 none)
          8 false [] []) ⟨.Capabilities 4⟩ = .ok w' ∧
      w'.maxChannels = 4 ∧
      (∀ cid, cid ∈ occupied (mkWorld
          (none :: none :: none :: some 42 :: List.replicate 11 none)
          8 false [] []).channels →
        (w'.chans cid).received
          = ((mkWorld (none :: none :: none :: some 42 :: List.replicate 11 none)
              8 false [] []).chans cid).received ++ [⟨.Capabilities 4⟩]) ∧
      (∀ x, x ∉ occupied (mkWorld
          (none :: none :: none :: some 42 :: List.replicate 11 none)
          8 false [] []).channels →
        w'.chans x
          = (mkWorld (none :: none :: none :: some 42 :: List.replicate 11 none)
              8 false [] []).chans x)) :=
  ⟨(c4_handle_message_dispatch
      (mkWorld (none :: none :: none :: some 42 :: List.replicate 11 none) 8 false [] [])
      20 4 [1]).1 (by decide),
   (c4_handle_message_dispatch
      (mkWorld (none :: none :: none :: some 42 :: List.replicate 11 none) 8 false [] [])
      1 4 [1]).2.1 (by decide) (by decide),
   (c4_handle_message_dispatch
      (mkWorld (none :: none :: none :: some 42 :: List.replicate 11 none) 8 false [] [])
      3 4 [1]).2.2.1 42 (by decide) (by decide),
   (c4_handle_message_dispatch
      (mkWorld (none :: none :: none :: some 42 :: List.replicate 11 none) 8 false [] [])
      3 4 [1]).2.2.2.1 (by decide)⟩

/-- C6: in a successful `process` call, the pending inbound messages are all
drained first — the observer event (when the callback is set) preceding each
message's deliveries, in arrival order — and only once the driver reports no
message left does the flush run: the trace extends by the drain events
followed by the flush events, the flush forwarding each occupied slot's
queue to the driver in slot-index order, each queue contiguously and
completely (every flushed channel's queue ends empty). -/
theorem c6_process_order (w : World) (msgs : List AntMessage)
    (rest : List (Option AntMessage))
    (hscript : w.driver.script = msgs.map some ++ none :: rest)
    (hok : ∀ m ∈ msgs, msgOk w.channels m = true)
    (hnodup : (occupied w.channels).Nodup) :
    ∃ w', process w = .ok w' ∧
      w'.driver.script = rest ∧
      w'.trace = w.trace ++ msgs.flatMap (handleTrace w.cbSet w.channels)
                 ++ flushTrace w ∧
      w'.driver.sentLog = w.driver.sentLog ++ flushSends w ∧
      (∀ cid ∈ occupied w.channels, (w'.chans cid).outQueue = []) := by
  obtain ⟨w2, hdrain, hc, hs, hl, hcb, hrr, htr, hch⟩ :=
    drainGo_ok msgs rest w hscript hok
  have hnd2 : (occupied w2.channels).Nodup := by rw [hc]; exact hnodup
  obtain ⟨fc, fm, fcb, frr, fs, fl, ftr, fq, fout, fkeep⟩ :=
    flushFold (occupied w2.channels) w2 hnd2
  unfold process drain
  rw [hdrain]
  refine ⟨flush w2, rfl, ?_, ?_, ?_, ?_⟩
  · show (flush w2).driver.script = rest
    unfold flush
    rw [fs, hs]
  · show (flush w2).trace = _
    unfold flush
    rw [ftr, htr, hc]
    congr 1
    unfold flushTrace
    refine flatMap_congr _ _ _ ?_
    intro cid _
    rw [(hch cid).2]
  · show (flush w2).driver.sentLog = _
    unfold flush
    rw [fl, hl, hc]
    congr 1
    unfold flushSends
    refine flatMap_congr _ _ _ ?_
    intro cid _
    rw [(hch cid).2]
  · intro cid hmem
    show ((flush w2).chans cid).outQueue = []
    unfold flush
    exact fq cid (by rw [hc]; exact hmem)

/-- Witness for C6: slots 0 and 2 hold objects 7 and 9 with queued outbound
messages; two inbound messages (a broadcast to channel 0 and a capabilities
report) are drained, then both queues are flushed in slot order, with one
further inbound entry left behind the empty poll. -/
theorem c6_witness :
    ∃ w', process (mkWorld (some 7 :: none :: some 9 :: List.replicate 12 none) 8 true
        [some ⟨.BroadcastData 0 [1]⟩, some ⟨.Capabilities 4⟩, none, some ⟨.EventFilter⟩]
        [[], [], [], [], [], [], [],
          [.ChannelPayload 1, .ChannelPayload 2], [], [.ChannelPayload 3]]) = .ok w' ∧
      w'.driver.script = [some ⟨.EventFilter⟩] ∧
      w'.trace = (mkWorld (some 7 :: none :: some 9 :: List.replicate 12 none) 8 true
          [some ⟨.BroadcastData 0 [1]⟩, some ⟨.Capabilities 4⟩, none, some ⟨.EventFilter⟩]
          [[], [], [], [], [], [], [],
            [.ChannelPayload 1, .ChannelPayload 2], [], [.ChannelPayload 3]]).trace
        ++ [⟨.BroadcastData 0 [1]⟩, ⟨.Capabilities 4⟩].flatMap
            (handleTrace (mkWorld (some 7 :: none :: some 9 :: List.replicate 12 none) 8 true
              [some ⟨.BroadcastData 0 [1]⟩, some ⟨.Capabilities 4⟩, none, some ⟨.EventFilter⟩]
              [[], [], [], [], [], [], [],
                [.ChannelPayload 1, .ChannelPayload 2], [], [.ChannelPayload 3]]).cbSet
              (mkWorld (some 7 :: none :: some 9 :: List.replicate 12 none) 8 true
              [some ⟨.BroadcastData 0 [1]⟩, some ⟨.Capabilities 4⟩, none, some ⟨.EventFilter⟩]
              [[], [], [], [], [], [], [],
                [.ChannelPayload 1, .ChannelPayload 2], [], [.ChannelPayload 3]]).channels)
        ++ flushTrace (mkWorld (some 7 :: none :: some 9 :: List.replicate 12 none) 8 true
            [some ⟨.BroadcastData 0 [1]⟩, some ⟨.Capabilities 4⟩, none, some ⟨.EventFilter⟩]
            [[], [], [], [], [], [], [],
              [.ChannelPayload 1, .ChannelPayload 2], [], [.ChannelPayload 3]]) ∧
      w'.driver.sentLog = (mkWorld (some 7 :: none :: some 9 :: List.replicate 12 none) 8 true
          [some ⟨.BroadcastData 0 [1]⟩, some ⟨.Capabilities 4⟩, none, some ⟨.EventFilter⟩]
          [[], [], [], [], [], [], [],
            [.ChannelPayload 1, .ChannelPayload 2], [], [.ChannelPayload 3]]).driver.sentLog
        ++ flushSends (mkWorld (some 7 :: none :: some 9 :: List.replicate 12 none) 8 true
            [some ⟨.BroadcastData 0 [1]⟩, some ⟨.Capabilities 4⟩, none, some ⟨.EventFilter⟩]
            [[], [], [], [], [], [], [],
              [.ChannelPayload 1, .ChannelPayload 2], [], [.ChannelPayload 3]]) ∧
      (∀ cid ∈ occupied (mkWorld (some 7 :: none :: some 9 :: List.replicate 12 none) 8 true
          [some ⟨.BroadcastData 0 [1]⟩, some ⟨.Capabilities 4⟩, none, some ⟨.EventFilter⟩]
          [[], [], [], [], [], [], [],
            [.ChannelPayload 1, .ChannelPayload 2], [], [.ChannelPayload 3]]).channels,
        (w'.chans cid).outQueue = []) :=
  c6_process_order
    (mkWorld (some 7 :: none :: some 9 :: List.replicate 12 none) 8 true
      [some ⟨.BroadcastData 0 [1]⟩, some ⟨.Capabilities 4⟩, none, some ⟨.EventFilter⟩]
      [[], [], [], [], [], [], [],
        [.ChannelPayload 1, .ChannelPayload 2], [], [.ChannelPayload 3]])
    [⟨.BroadcastData 0 [1]⟩, ⟨.Capabilities 4⟩] [some ⟨.EventFilter⟩]
    (by decide) (by decide) (by decide)

/-- C10: when routing one drained inbound message fails (a channel-scoped
message that is out of bounds or addresses an empty slot), `process` returns
that error immediately: the entries after the failing one stay queued in the
driver, nothing is sent to the driver in that call, and no channel's
outbound queue is emptied. -/
theorem c10_process_error_aborts (w : World) (pre : List AntMessage)
    (bad : AntMessage) (rest : List (Option AntMessage))
    (hscript : w.driver.script = pre.map some ++ some bad :: rest)
    (hok : ∀ m ∈ pre, msgOk w.channels m = true)
    (hbad : msgOk w.channels bad = false) :
    (routeErr bad = .ChannelOutOfBounds ∨ routeErr bad = .ChannelNotAssociated) ∧
    ∃ w', process w = .error (routeErr bad, w') ∧
      w'.driver.script = rest ∧
      w'.driver.sentLog = w.driver.sentLog ∧
      (∀ x, (w'.chans x).outQueue = (w.chans x).outQueue) ∧
      w'.trace = w.trace ++ pre.flatMap (handleTrace w.cbSet w.channels)
                 ++ (if w.cbSet then [Event.observed bad] else []) := by
  constructor
  · cases hscope : channelScope bad.message with
    | none =>
        simp only [msgOk, hscope] at hbad
        exact Bool.noConfusion hbad
    | some n =>
        simp only [routeErr, hscope]
        by_cases hn : n ≥ MAX_CHANNELS
        · left
          rw [if_pos hn]
        · right
          rw [if_neg hn]
  · obtain ⟨w', hdrain, hc, hs, hl, htr, hch⟩ :=
      drainGo_err pre bad rest w hscript hok hbad
    unfold process drain
    rw [hdrain]
    exact ⟨w', rfl, hs, hl, fun x => (hch x).2, htr⟩

/-- Witness for C10: one successfully routed broadcast, then a broadcast to
empty slot 5 aborts the call with `ChannelNotAssociated`; the start-up
message behind it stays queued and object 7's outbound queue stays full. -/
theorem c10_witness :
    (routeErr ⟨.BroadcastData 5 [2]⟩ = .ChannelOutOfBounds ∨
      routeErr ⟨.BroadcastData 5 [2]⟩ = .ChannelNotAssociated) ∧
    ∃ w', process (mkWorld (some 7 :: List.replicate 14 none) 8 true
        [some ⟨.BroadcastData 0 [1]⟩, some ⟨.BroadcastData 5 [2]⟩, some ⟨.StartUpMessage⟩]
        [[], [], [], [], [], [], [], [.ChannelPayload 1]])
      = .error (routeErr ⟨.BroadcastData 5 [2]⟩, w') ∧
      w'.driver.script = [some ⟨.StartUpMessage⟩] ∧
      w'.driver.sentLog = (mkWorld (some 7 :: List.replicate 14 none) 8 true
          [some ⟨.BroadcastData 0 [1]⟩, some ⟨.BroadcastData 5 [2]⟩, some ⟨.StartUpMessage⟩]
          [[], [], [], [], [], [], [], [.ChannelPayload 1]]).driver.sentLog ∧
      (∀ x, (w'.chans x).outQueue
        = ((mkWorld (some 7 :: List.replicate 14 none) 8 true
            [some ⟨.BroadcastData 0 [1]⟩, some ⟨.BroadcastData 5 [2]⟩, some ⟨.StartUpMessage⟩]
            [[], [], [], [], [], [], [], [.ChannelPayload 1]]).chans x).outQueue) ∧
      w'.trace = (mkWorld (some 7 :: List.replicate 14 none) 8 true
          [some ⟨.BroadcastData 0 [1]⟩, some ⟨.BroadcastData 5 [2]⟩, some ⟨.StartUpMessage⟩]
          [[], [], [], [], [], [], [], [.ChannelPayload 1]]).trace
        ++ [⟨.BroadcastData 0 [1]⟩].flatMap
            (handleTrace (mkWorld (some 7 :: List.replicate 14 none) 8 true
              [some ⟨.BroadcastData 0 [1]⟩, some ⟨.BroadcastData 5 [2]⟩, some ⟨.StartUpMessage⟩]
              [[], [], [], [], [], [], [], [.ChannelPayload 1]]).cbSet
              (mkWorld (some 7 :: List.replicate 14 none) 8 true
              [some ⟨.BroadcastData 0 [1]⟩, some ⟨.BroadcastData 5 [2]⟩, some ⟨.StartUpMessage⟩]
              [[], [], [], [], [], [], [], [.ChannelPayload 1]]).channels)
        ++ (if (mkWorld (some 7 :: List.replicate 14 none) 8 true
              [some ⟨.BroadcastData 0 [1]⟩, some ⟨.BroadcastData 5 [2]⟩, some ⟨.StartUpMessage⟩]
              [[], [], [], [], [], [], [], [.ChannelPayload 1]]).cbSet
            then [Event.observed ⟨.BroadcastData 5 [2]⟩] else []) :=
  c10_process_error_aborts
    (mkWorld (some 7 :: List.replicate 14 none) 8 true
      [some ⟨.BroadcastData 0 [1]⟩, some ⟨.BroadcastData 5 [2]⟩, some ⟨.StartUpMessage⟩]
      [[], [], [], [], [], [], [], [.ChannelPayload 1]])
    [⟨.BroadcastData 0 [1]⟩] ⟨.BroadcastData 5 [2]⟩ [some ⟨.StartUpMessage⟩]
    (by decide) (by decide) (by decide)

/-- Counterexample to C2: over a driver reporting "max 8 channels",
construction succeeds and `max_channels` is 8, but the ninth `add_channel`
call also SUCCEEDS (the run of nine consecutive `add_channel` calls ends in
success), because `add_channel` scans the full fixed 15-slot array and never
consults `max_channels` — contradicting the claim that the ninth call fails
with `OutOfChannels`. -/
theorem c2_counterexample :
    resultOk (routerNew capDriver8) = true ∧
    (resultState (routerNew capDriver8)).maxChannels = 8 ∧
    resultOk scenarioNine = true := by
  refine ⟨by decide, by decide, by decide⟩

/-- C2 amended: over the cap-8 driver, `new()` succeeds with
`max_channels = 8`; the next FIFTEEN `add_channel` calls all succeed (the
scan ignores `max_channels` and fills the whole fixed table), and only the
sixteenth call fails with `OutOfChannels`. -/
theorem c2_amended :
    resultOk (routerNew capDriver8) = true ∧
    (resultState (routerNew capDriver8)).maxChannels = 8 ∧
    resultOk scenarioFifteen = true ∧
    resultError (addMany (routerNew capDriver8) (List.range 16))
      = some .OutOfChannels := by
  refine ⟨by decide, by decide, by decide, by decide⟩

/-- Counterexample to C3: a driver whose capabilities reply arrives exactly
at the 25th poll iteration — inside the stated 25-iteration budget.  The
reply IS processed (`max_channels` becomes 8, non-zero), yet `new` still
fails with `FailedToGetCapabilities`, because the source checks
`i == ROUTER_CAPABILITIES_RETRIES` after the loop rather than whether
`max_channels` is still zero — contradicting the claim that a construction
whose reply arrives within the budget succeeds. -/
theorem c3_counterexample :
    resultError (routerNew boundaryDriver) = some .FailedToGetCapabilities ∧
    (resultState (routerNew boundaryDriver)).maxChannels = 8 := by
  refine ⟨by decide, by decide⟩

/-- C3 amended: a construction that never receives a capabilities reply
fails with `FailedToGetCapabilities` after exactly 25 `process` attempts
(the purge eats the leading empty poll and each of the 25 loop iterations
consumes exactly one empty poll, leaving `rest`); a reply arriving at poll
attempt `j + 1 ≤ 24` makes construction succeed with `max_channels` set; a
reply arriving exactly at the 25th attempt is still processed
(`max_channels` is set) but construction nonetheless fails. -/
theorem c3_amended (sent0 : List TxMessage) (rest : List (Option AntMessage))
    (j k : Nat) :
    (∃ w', routerNew ⟨none :: (List.replicate 25 none ++ rest), sent0⟩
        = .error (.FailedToGetCapabilities, w') ∧ w'.driver.script = rest) ∧
    (j ≤ 23 → 0 < k →
      ∃ w', routerNew ⟨none :: (List.replicate j none
            ++ some ⟨.Capabilities k⟩ :: none :: rest), sent0⟩ = .ok w' ∧
        w'.maxChannels = k ∧ w'.driver.script = rest) ∧
    (0 < k →
      ∃ w', routerNew ⟨none :: (List.replicate 24 none
            ++ some ⟨.Capabilities k⟩ :: none :: rest), sent0⟩
          = .error (.FailedToGetCapabilities, w') ∧
        w'.maxChannels = k ∧ w'.driver.script = rest) := by
  refine ⟨?_, ?_, ?_⟩
  · rw [routerNew_eq]
    obtain ⟨w', hrun, _, _, _, _, hs, _, _⟩ :=
      newGo_silent ROUTER_CAPABILITIES_RETRIES
        (initWorld ⟨purge (none :: (List.replicate 25 none ++ rest)),
          (sent0 ++ [TxMessage.ResetSystem]) ++ [TxMessage.RequestMessage 0]⟩)
        rest rfl (occupied_replicate_none _) rfl
    exact ⟨w', hrun, hs⟩
  · intro hj hk
    rw [routerNew_eq]
    obtain ⟨w', hrun, _, hm, _, _, hs, _, _⟩ :=
      newGo_cap j ROUTER_CAPABILITIES_RETRIES
        (initWorld ⟨purge (none :: (List.replicate j none
          ++ some ⟨.Capabilities k⟩ :: none :: rest)),
          (sent0 ++ [TxMessage.ResetSystem]) ++ [TxMessage.RequestMessage 0]⟩)
        k rest (by show j < 25; omega) hk rfl (occupied_replicate_none _) rfl rfl
    rw [if_neg (by show ¬(25 = j + 1); omega)] at hrun
    exact ⟨w', hrun, hm, hs⟩
  · intro hk
    rw [routerNew_eq]
    obtain ⟨w', hrun, _, hm, _, _, hs, _, _⟩ :=
      newGo_cap 24 ROUTER_CAPABILITIES_RETRIES
        (initWorld ⟨purge (none :: (List.replicate 24 none
          ++ some ⟨.Capabilities k⟩ :: none :: rest)),
          (sent0 ++ [TxMessage.ResetSystem]) ++ [TxMessage.RequestMessage 0]⟩)
        k rest (by show 24 < 25; omega) hk rfl (occupied_replicate_none _) rfl rfl
    rw [if_pos (by show 25 = 24 + 1; rfl)] at hrun
    exact ⟨w', hrun, hm, hs⟩

/-- Witness for C3 (amended): with an empty tail and fresh log, the
never-reply script fails with an intact remainder; a reply at the very first
poll attempt succeeds with `max_channels = 8`; a reply at the 25th attempt
is processed but construction fails. -/
theorem c3_witness :
    (∃ w', routerNew ⟨none :: (List.replicate 25 none ++ []), []⟩
        = .error (.FailedToGetCapabilities, w') ∧ w'.driver.script = []) ∧
    (∃ w', routerNew ⟨none :: (List.replicate 0 none
          ++ some ⟨.Capabilities 8⟩ :: none :: []), []⟩ = .ok w' ∧
      w'.maxChannels = 8 ∧ w'.driver.script = []) ∧
    (∃ w', routerNew ⟨none :: (List.replicate 24 none
          ++ some ⟨.Capabilities 8⟩ :: none :: []), []⟩
        = .error (.FailedToGetCapabilities, w') ∧
      w'.maxChannels = 8 ∧ w'.driver.script = []) :=
  ⟨(c3_amended [] [] 0 8).1,
   (c3_amended [] [] 0 8).2.1 (by decide) (by decide),
   (c3_amended [] [] 0 8).2.2 (by decide)⟩

/-- Lemma: the manufacturer-specific window lies outside the known page
numbers. -/
theorem fromPrimitive_none_of_range (n : Nat)
    (h : HeartRate.inManufacturerSpecificRange n = true) :
    HeartRate.DataPageNumbers.fromPrimitive n = none := by
  simp only [HeartRate.inManufacturerSpecificRange, Bool.and_eq_true,
    decide_eq_true_eq] at h
  unfold HeartRate.DataPageNumbers.fromPrimitive
  split_ifs <;> first | rfl | omega

/-- C5: the data-page decode masks byte 0 down to its low 7 bits; a masked
number equal to the feature-command page (transmit-only in this direction)
yields `UnsupportedDataPage`; a masked number inside the reserved
manufacturer-specific window always decodes successfully via the generic
manufacturer-specific layout; any other unknown number yields
`UnsupportedDataPage` carrying the number. -/
theorem c5_parse_dp_classification (data : List Nat) :
    (data.headD 0 &&& HeartRate.DATA_PAGE_NUMBER_MASK = data.headD 0 % 128) ∧
    (HeartRate.DataPageNumbers.fromPrimitive
        (data.headD 0 &&& HeartRate.DATA_PAGE_NUMBER_MASK)
        = some .HRFeatureCommand →
      HeartRate.parse_dp data
        = .error (.UnsupportedDataPage
            (data.headD 0 &&& HeartRate.DATA_PAGE_NUMBER_MASK))) ∧
    (HeartRate.inManufacturerSpecificRange
        (data.headD 0 &&& HeartRate.DATA_PAGE_NUMBER_MASK) = true →
      HeartRate.parse_dp data = .ok (.ManufacturerSpecific data)) ∧
    (HeartRate.DataPageNumbers.fromPrimitive
        (data.headD 0 &&& HeartRate.DATA_PAGE_NUMBER_MASK) = none →
      HeartRate.inManufacturerSpecificRange
        (data.headD 0 &&& HeartRate.DATA_PAGE_NUMBER_MASK) = false →
      HeartRate.parse_dp data
        = .error (.UnsupportedDataPage
            (data.headD 0 &&& HeartRate.DATA_PAGE_NUMBER_MASK))) := by
  refine ⟨?_, ?_, ?_, ?_⟩
  · show data.headD 0 &&& 127 = data.headD 0 % 128
    generalize data.headD 0 = b
    have h := Nat.and_pow_two_sub_one_eq_mod b 7
    norm_num at h
    exact h
  · intro hfp
    simp only [HeartRate.parse_dp, hfp]
  · intro hr
    simp only [HeartRate.parse_dp,
      fromPrimitive_none_of_range _ hr, hr, if_true]
  · intro hfp hr
    simp only [HeartRate.parse_dp, hfp, hr]
    simp

/-- Witness for C5: masked page 32 (feature command, toggle bit set in byte
0xA0) is rejected, masked page 112 (byte 0xF0, manufacturer-specific window)
decodes via the fallback layout, and unknown page 10 is rejected carrying
its number. -/
theorem c5_witness :
    HeartRate.parse_dp [160, 1, 2, 3, 4, 5, 6, 7]
      = .error (.UnsupportedDataPage 32) ∧
    HeartRate.parse_dp [240, 0, 0, 0, 0, 0, 0, 0]
      = .ok (.ManufacturerSpecific [240, 0, 0, 0, 0, 0, 0, 0]) ∧
    HeartRate.parse_dp [10, 0, 0, 0, 0, 0, 0, 0]
      = .error (.UnsupportedDataPage 10) :=
  ⟨(c5_parse_dp_classification [160, 1, 2, 3, 4, 5, 6, 7]).2.1 (by decide),
   (c5_parse_dp_classification [240, 0, 0, 0, 0, 0, 0, 0]).2.2.1 (by decide),
   (c5_parse_dp_classification [10, 0, 0, 0, 0, 0, 0, 0]).2.2.2 (by decide) (by decide)⟩

/-- C7: after its inbound drain, `Display::process` emits exactly the
message selected by the spec's strict priority rule (`specEmission`): the
inner handler's pending configuration/control message first, else the
application's channel-config override, else — only when the inner handler is
tx-ready — the application's data page; at most one message is appended to
the tx queue per cycle; and when the third branch fires, `tx_sent` resets
the ready flag. -/
theorem c7_display_process_priority (d : HeartRate.Display) :
    (HeartRate.Display.process d).tx
      = (HeartRate.Display.drain d).tx
        ++ (HeartRate.specEmission (HeartRate.Display.drain d).msgHandler
            (HeartRate.Display.drain d).txMessageCb
            (HeartRate.Display.drain d).txDatapageCb).toList ∧
    ((HeartRate.Display.process d).tx).length
      ≤ ((HeartRate.Display.drain d).tx).length + 1 ∧
    ((HeartRate.Display.drain d).msgHandler.pending = [] →
      ((HeartRate.Display.drain d).txMessageCb = none ∨
        (HeartRate.Display.drain d).txMessageCb = some none) →
      (HeartRate.Display.drain d).msgHandler.isTxReady = true →
      ∀ p, (HeartRate.Display.drain d).txDatapageCb = some (some p) →
        (HeartRate.Display.process d).msgHandler.txReady = false) := by
  have hmain : (HeartRate.Display.process d).tx
      = (HeartRate.Display.drain d).tx
        ++ (HeartRate.specEmission (HeartRate.Display.drain d).msgHandler
            (HeartRate.Display.drain d).txMessageCb
            (HeartRate.Display.drain d).txDatapageCb).toList := by
    simp only [HeartRate.Display.process]
    cases hp : (HeartRate.Display.drain d).msgHandler.pending with
    | cons t rest =>
        rw [show (HeartRate.Display.drain d).msgHandler.sendMessage
            = (some t,
                { (HeartRate.Display.drain d).msgHandler with pending := rest }) from by
          unfold HeartRate.MessageHandler.sendMessage; rw [hp]]
        simp [HeartRate.specEmission, hp]
    | nil =>
        rw [show (HeartRate.Display.drain d).msgHandler.sendMessage
            = (none, (HeartRate.Display.drain d).msgHandler) from by
          unfold HeartRate.MessageHandler.sendMessage; rw [hp]]
        cases hcb : (HeartRate.Display.drain d).txMessageCb with
        | some v =>
            cases v with
            | some cfg => simp [HeartRate.specEmission, hp, hcb]
            | none =>
                cases hr : (HeartRate.Display.drain d).msgHandler.isTxReady with
                | false => simp [HeartRate.specEmission, hp, hcb, hr]
                | true =>
                    cases hdp : (HeartRate.Display.drain d).txDatapageCb with
                    | some v2 =>
                        cases v2 with
                        | some page =>
                            simp [HeartRate.specEmission, hp, hcb, hr, hdp]
                        | none => simp [HeartRate.specEmission, hp, hcb, hr, hdp]
                    | none => simp [HeartRate.specEmission, hp, hcb, hr, hdp]
        | none =>
            cases hr : (HeartRate.Display.drain d).msgHandler.isTxReady with
            | false => simp [HeartRate.specEmission, hp, hcb, hr]
            | true =>
                cases hdp : (HeartRate.Display.drain d).txDatapageCb with
                | some v2 =>
                    cases v2 with
                    | some page => simp [HeartRate.specEmission, hp, hcb, hr, hdp]
                    | none => simp [HeartRate.specEmission, hp, hcb, hr, hdp]
                | none => simp [HeartRate.specEmission, hp, hcb, hr, hdp]
  refine ⟨hmain, ?_, ?_⟩
  · rw [hmain, List.length_append]
    have : ((HeartRate.specEmission (HeartRate.Display.drain d).msgHandler
        (HeartRate.Display.drain d).txMessageCb
        (HeartRate.Display.drain d).txDatapageCb).toList).length ≤ 1 := by
      cases HeartRate.specEmission (HeartRate.Display.drain d).msgHandler
          (HeartRate.Display.drain d).txMessageCb
          (HeartRate.Display.drain d).txDatapageCb <;> simp
    omega
  · intro hp hcb hr p hdp
    simp only [HeartRate.Display.process]
    rw [show (HeartRate.Display.drain d).msgHandler.sendMessage
        = (none, (HeartRate.Display.drain d).msgHandler) from by
      unfold HeartRate.MessageHandler.sendMessage; rw [hp]]
    have hr' : (HeartRate.Display.drain d).msgHandler.txReady = true := hr
    rcases hcb with hcb | hcb <;>
      simp [hcb, hr', hdp, HeartRate.MessageHandler.txSent,
        HeartRate.MessageHandler.isTxReady]

/-- Witness for C7: a drained display with no handler-pending message, a
config callback that yields nothing, a ready handler and a data-page
callback yielding a page: the page is emitted and the ready flag is reset. -/
theorem c7_witness :
    ((HeartRate.Display.process
        ⟨⟨3, true, [], []⟩, false, false, some none, some (some ⟨9, 0⟩), [], [], [], []⟩).tx
      = (HeartRate.Display.drain
          ⟨⟨3, true, [], []⟩, false, false, some none, some (some ⟨9, 0⟩), [], [], [], []⟩).tx
        ++ (HeartRate.specEmission
            (HeartRate.Display.drain
              ⟨⟨3, true, [], []⟩, false, false, some none, some (some ⟨9, 0⟩), [], [], [], []⟩).msgHandler
            (HeartRate.Display.drain
              ⟨⟨3, true, [], []⟩, false, false, some none, some (some ⟨9, 0⟩), [], [], [], []⟩).txMessageCb
            (HeartRate.Display.drain
              ⟨⟨3, true, [], []⟩, false, false, some none, some (some ⟨9, 0⟩), [], [], [], []⟩).txDatapageCb).toList) ∧
    (HeartRate.Display.process
        ⟨⟨3, true, [], []⟩, false, false, some none, some (some ⟨9, 0⟩), [], [], [], []⟩).msgHandler.txReady
      = false :=
  ⟨(c7_display_process_priority
      ⟨⟨3, true, [], []⟩, false, false, some none, some (some ⟨9, 0⟩), [], [], [], []⟩).1,
   (c7_display_process_priority
      ⟨⟨3, true, [], []⟩, false, false, some none, some (some ⟨9, 0⟩), [], [], [], []⟩).2.2
      (by decide) (Or.inr (by decide)) (by decide) ⟨9, 0⟩ (by decide)⟩

end AntRs
